import Mathlib

/-!
# gogpt: congestion-control transport and batch builder

A shallow embedding of `backoffroundtripper.go`, of `batchsession.go` (accumulating a
batch and retrieving a result through the two caches) and of the endpoint adapters of
`batch.go` and `files.go` it relies on, followed by the properties proved about them.

Conventions of the embedding.

* `time.Duration` is a signed 64-bit count of nanoseconds, an integer here.  The
  conversion `time.Duration(x)` of a `float64` truncates toward zero; for a value outside
  the `int64` range, an infinity or a NaN, where Go leaves the result to the
  implementation, it yields `math.MinInt64`, as the amd64 conversion does.
* `backoffFactor` is a `float64`.  A non-negative `float64` is a rational `num / den`
  (`den = 0` for `+Inf` and for NaN); the product `float64(backoff) * backoffFactor` and
  the quotient `float64(backoff) / backoffFactor` are taken exactly, without the rounding
  to 53 bits.  For the factor the constructor sets (`2`) and durations of at most `2^53`
  ns both operations are exact in `float64`, so model and code agree there; the general
  properties below are stated within that range.
* Go `int` counters (`successSeq`, `retries`, `counter`, `requestCount`) start at zero
  and only grow by one; they live in `ℕ` (wrap-around after `2^63` steps is ignored).
* Mutexes and `time.Sleep` have no effect on the values computed and are left out.
* A Go `error` is its text.  The HTTP client, `http.NewRequest`, `path.Join`,
  `os.WriteFile`, `json.Marshal` and `json.Unmarshal` are outside the repository and enter
  as parameters (`Env`); the requests
  handed to the client are recorded in the `World`, so that "no request was sent" can be
  stated.
* The cache directory is a map from paths to bytes: `os.Stat` and `os.ReadFile` fail
  exactly when the path is absent; what `os.WriteFile` does (success, or an error with
  the file untouched or partly written) is a parameter, and so is `path.Join`; `slog`
  output is left out.
-/

namespace Gogpt

/-! ## backoffroundtripper.go -/

/-- Nanoseconds, as in `time.Duration`. -/
abbrev Duration := ℤ

/-- Constant `math.MaxInt64`, the largest `time.Duration`. -/
def MaxInt64 : ℤ := 9223372036854775807

/-- Constant `math.MinInt64`, the smallest `time.Duration`. -/
def MinInt64 : ℤ := -9223372036854775808

/-- Constant `time.Second`. -/
def Second : Duration := 1000000000

/-- Constant `time.Minute`. -/
def Minute : Duration := 60 * Second

/-- Constant `http.StatusOK`. -/
def StatusOK : ℕ := 200

/-- Constant `http.StatusTooManyRequests`. -/
def StatusTooManyRequests : ℕ := 429

/-- A non-negative `float64`, as the rational `num / den`; `den = 0` stands for `+Inf`
(and `0 / 0` for NaN). -/
structure Float64 where
  num : ℕ
  den : ℕ
  deriving DecidableEq

/-- Conversion `time.Duration(x)` of a float whose value, truncated toward zero, is `v`:
`v` itself when it is an `int64`, and `math.MinInt64` otherwise. -/
def Duration.ofFloat (v : ℤ) : Duration :=
  if MinInt64 ≤ v ∧ v ≤ MaxInt64 then v else MinInt64

/-- Expression `time.Duration(float64(d) * f)`: the product, truncated toward zero and
converted; a product with `+Inf` or NaN is an infinity or a NaN. -/
def Duration.mulFloat (d : Duration) (f : Float64) : Duration :=
  if f.den = 0 then MinInt64 else Duration.ofFloat (Int.tdiv (d * f.num) f.den)

/-- Expression `time.Duration(float64(d) / f)`: the quotient, truncated toward zero and
converted; a quotient by zero or NaN is an infinity or a NaN. -/
def Duration.divFloat (d : Duration) (f : Float64) : Duration :=
  if f.num = 0 then MinInt64 else Duration.ofFloat (Int.tdiv (d * f.den) f.num)

/-- The fields of `BackoffRoundTripper` that carry values (the base transport is passed
separately to `RoundTrip`; the two mutexes are left out). -/
structure BackoffRoundTripper where
  backoff : Duration
  backoffFactor : Float64
  defaultBackoff : Duration
  maxBackoff : Duration
  successSeq : ℕ
  retries : ℕ
  sequentialMode : Bool
  deriving DecidableEq

/-- Constructor `NewBackoffRoundTripper`: the three listed fields, all others zero. -/
def NewBackoffRoundTripper : BackoffRoundTripper :=
  { backoff := 0
    backoffFactor := ⟨2, 1⟩
    defaultBackoff := 1 * Second
    maxBackoff := 1 * Minute
    successSeq := 0
    retries := 0
    sequentialMode := false }

/-- Method `adjustModeAndBackoff`, statement by statement. -/
def adjustModeAndBackoff (rt : BackoffRoundTripper) (statusCode : ℕ) : BackoffRoundTripper :=
  if statusCode ≠ StatusOK ∧ statusCode ≠ StatusTooManyRequests then
    -- another error occurred, which should not effect the backoff
    rt
  else if statusCode = StatusTooManyRequests then
    -- backoff further
    let rt1 := { rt with sequentialMode := true }
    let rt2 := if rt1.backoff < rt1.defaultBackoff then
        { rt1 with backoff := rt1.defaultBackoff } else rt1
    let rt3 := { rt2 with backoff := Duration.mulFloat rt2.backoff rt2.backoffFactor }
    if rt3.backoff > rt3.maxBackoff then { rt3 with backoff := rt3.maxBackoff } else rt3
  else
    let rt1 := { rt with successSeq := rt.successSeq + 1 }
    if rt1.successSeq < 10 then
      -- at least 10 successful requests in a row before decreasing the backoff
      rt1
    else
      -- decrease backoff
      let rt2 := { rt1 with backoff := Duration.divFloat rt1.backoff rt1.backoffFactor }
      if rt2.backoff < rt2.defaultBackoff then
        -- switch back to concurrent mode
        { rt2 with backoff := rt2.defaultBackoff, sequentialMode := false }
      else rt2

/-- The controller after a sequence of responses, oldest first. -/
def adjustAll (rt : BackoffRoundTripper) (statusCodes : List ℕ) : BackoffRoundTripper :=
  statusCodes.foldl adjustModeAndBackoff rt

/-- Whether the `k`-th response (counted from zero) of an all-`200` run started in `rt`
lowers the backoff. -/
def decreasesAt (rt : BackoffRoundTripper) (k : ℕ) : Prop :=
  (adjustAll rt (List.replicate (k + 1) StatusOK)).backoff
    < (adjustAll rt (List.replicate k StatusOK)).backoff

instance (rt : BackoffRoundTripper) (k : ℕ) : Decidable (decreasesAt rt k) := by
  unfold decreasesAt; infer_instance

/-- The configuration fields, which no response changes. -/
def sameConfig (a b : BackoffRoundTripper) : Prop :=
  a.backoffFactor = b.backoffFactor ∧ a.defaultBackoff = b.defaultBackoff ∧
    a.maxBackoff = b.maxBackoff ∧ a.retries = b.retries

/-- A controller in sequential mode with the constructor's configuration, the given
backoff and the given count of successes. -/
def throttledWith (backoff : Duration) (successSeq : ℕ) : BackoffRoundTripper :=
  { NewBackoffRoundTripper with
    backoff := backoff, successSeq := successSeq, sequentialMode := true }

/-- The part of an `*http.Response` the transport reads, with its payload. -/
structure Response where
  StatusCode : ℕ
  Body : String
  deriving DecidableEq

/-- The errors `RoundTrip` returns: `ErrTooManyRetries` (wrapping the message with the
retry limit), or the error of the base transport, passed on as it is. -/
inductive RoundTripError where
  | ErrTooManyRetries (retries : ℕ)
  | transport (err : String)
  deriving DecidableEq

/-- What `rt.base.RoundTrip(req)` returns: `(res, nil)`, or `(res, err)` with a non-nil
`err`. -/
inductive BaseResult where
  | ok (res : Response)
  | failed (res : Option Response) (err : String)
  deriving DecidableEq

/-- What a call of `RoundTrip` leaves behind: the returned pair, the controller, and the
number of times the request went to the base transport. -/
structure RoundTripResult where
  res : Option Response
  err : Option RoundTripError
  rt : BackoffRoundTripper
  dispatched : ℕ
  deriving DecidableEq

/-- The `for` loop of `RoundTrip`.  `base i` is the answer of the base transport to the
dispatch that follows `i` earlier ones; `fuel` bounds the number of iterations and `none`
means the bound was hit.  Both arms of the mode test dispatch to the base transport (the
sequential arm sleeps first), so they compute the same pair. -/
def RoundTrip.loop (base : ℕ → BaseResult) :
    ℕ → BackoffRoundTripper → ℕ → ℕ → Option RoundTripResult
  | 0, _, _, _ => none
  | fuel + 1, rt, counter, dispatched =>
    let counter := counter + 1
    if rt.retries > 0 ∧ counter > rt.retries then
      some { res := none, err := some (.ErrTooManyRetries rt.retries), rt := rt,
             dispatched := dispatched }
    else
      match base dispatched with
      | .failed res err =>
        some { res := res, err := some (.transport err), rt := rt,
               dispatched := dispatched + 1 }
      | .ok res =>
        let rt := adjustModeAndBackoff rt res.StatusCode
        if res.StatusCode ≠ StatusTooManyRequests then
          some { res := some res, err := none, rt := rt, dispatched := dispatched + 1 }
        else
          RoundTrip.loop base fuel rt counter (dispatched + 1)

/-- Method `RoundTrip`: the loop entered with `counter := 0`. -/
def RoundTrip (base : ℕ → BaseResult) (fuel : ℕ) (rt : BackoffRoundTripper) :
    Option RoundTripResult :=
  RoundTrip.loop base fuel rt 0 0

/-- A base transport that answers every dispatch with status 429. -/
def alwaysThrottled (body : String) : ℕ → BaseResult :=
  fun _ => .ok { StatusCode := StatusTooManyRequests, Body := body }

/-- A base transport that answers 429 to the first `k` dispatches and `res` afterwards. -/
def throttledThen (k : ℕ) (res : Response) : ℕ → BaseResult :=
  fun i => if i < k then .ok { StatusCode := StatusTooManyRequests, Body := "" } else .ok res

/-! ## models.go, gpt.go, batchsession.go: accumulating a batch -/

/-- A `goerror.TraceableError`: the code and message given to `goerror.New`, and the
error attached by `WithError`, if any. -/
structure TraceableError where
  code : String
  message : String
  cause : Option String
  deriving DecidableEq

/-- Function `goerror.New`. -/
def goerrorNew (code message : String) : TraceableError :=
  { code := code, message := message, cause := none }

/-- Method `WithError`. -/
def TraceableError.WithError (e : TraceableError) (err : String) : TraceableError :=
  { e with cause := some err }

/-- Error value `ErrSerializeBatchRequest`. -/
def ErrSerializeBatchRequest : TraceableError :=
  goerrorNew "gpt:serialize_batch_request" "Failed to serialize batch request"

/-- Error value `ErrExceedsFileLimit`. -/
def ErrExceedsFileLimit : TraceableError :=
  goerrorNew "gpt:exceeds_file_limit" "Exceeds file limit"

/-- Type `gptJsonSchema`; the schema map is kept as its JSON text. -/
structure gptJsonSchema where
  Name : String
  Strict : Bool
  Schema : String
  deriving DecidableEq

/-- Type `gptResponseFormat` (`Typ` is the field `Type`). -/
structure gptResponseFormat where
  Typ : String
  JsonSchema : Option gptJsonSchema
  deriving DecidableEq

/-- Type `appliedRequestOption`. -/
structure appliedRequestOption where
  model : String
  seed : ℤ
  responseFormat : gptResponseFormat
  deriving DecidableEq

/-- Type `RequestOption`: a function that updates the applied options or fails. -/
abbrev RequestOption := appliedRequestOption → Except String appliedRequestOption

/-- An element of `gptPromptRequest.Messages`. -/
structure gptMessage where
  Role : String
  Content : String
  deriving DecidableEq

/-- Type `gptPromptRequest`. -/
structure gptPromptRequest where
  Seed : ℤ
  Model : String
  Messages : List gptMessage
  Temperature : Float64
  ResponseFormat : gptResponseFormat
  deriving DecidableEq

/-- Type `gptBatchSingleRequest`. -/
structure gptBatchSingleRequest where
  CustomId : String
  Method : String
  Url : String
  Body : gptPromptRequest
  deriving DecidableEq

/-- Type `gptBatchError`. -/
structure gptBatchError where
  Code : String
  Message : String
  Param : String
  Line : ℤ
  deriving DecidableEq

/-- Type `GptBatchResponse`, with the fields the session reads. -/
structure GptBatchResponse where
  ID : String
  Errors : Option (List gptBatchError)
  Status : String
  OutputFileID : Option String
  deriving DecidableEq

/-- Type `Gpt`, without the token and the HTTP client. -/
structure Gpt where
  model : String
  seed : ℤ
  cacheDir : String
  deriving DecidableEq

/-- Type `GptBatchSession`, without the HTTP client; the two maps are association
lists. -/
structure GptBatchSession where
  model : String
  seed : ℤ
  batches : List (String × GptBatchResponse)
  files : List (String × List UInt8)
  createBatchData : List UInt8
  requestCount : ℕ
  cacheDir : String
  deriving DecidableEq

/-- Method `NewBatchSession`. -/
def Gpt.NewBatchSession (g : Gpt) : GptBatchSession :=
  { seed := g.seed
    model := g.model
    batches := []
    files := []
    cacheDir := g.cacheDir
    createBatchData := []
    requestCount := 0 }

/-- The `for` loop over `options` in `AddToBatch`: the first failing option stops it. -/
def applyOptions : List RequestOption → appliedRequestOption → Except String appliedRequestOption
  | [], opts => .ok opts
  | opt :: rest, opts =>
    match opt opts with
    | .error err => .error err
    | .ok opts => applyOptions rest opts

/-- The record ceiling tested by `AddToBatch`. -/
def maxRequestCount : ℕ := 50000

/-- The byte bound `512*1024*1024+1` tested by `AddToBatch`. -/
def fileLimit : ℕ := 512 * 1024 * 1024 + 1

/-- The options `AddToBatch` starts from. -/
def GptBatchSession.initialOptions (s : GptBatchSession) : appliedRequestOption :=
  { model := s.model
    seed := s.seed
    responseFormat := { Typ := "json_object", JsonSchema := none } }

/-- The request literal `req` of `AddToBatch`. -/
def batchRequest (opts : appliedRequestOption)
    (customRequestId systemPrompt userPrompt : String) : gptBatchSingleRequest :=
  { CustomId := customRequestId
    Method := "POST"
    Url := "/v1/chat/completions"
    Body :=
      { Model := opts.model
        Seed := opts.seed
        Messages := [{ Role := "system", Content := systemPrompt },
                     { Role := "user", Content := userPrompt }]
        Temperature := ⟨0, 1⟩
        ResponseFormat := opts.responseFormat } }

/-- Method `AddToBatch`.  `marshal` stands for `json.Marshal` on a `gptBatchSingleRequest`.
The result is the returned error (`none` for `nil`) and the session afterwards. -/
def GptBatchSession.AddToBatch
    (marshal : gptBatchSingleRequest → Except String (List UInt8))
    (s : GptBatchSession) (customRequestId systemPrompt userPrompt : String)
    (options : List RequestOption) : Option TraceableError × GptBatchSession :=
  let opts := s.initialOptions
  match applyOptions options opts with
  | .error err =>
    (some ((goerrorNew "gpt:add_to_batch" "failed to apply option").WithError err), s)
  | .ok opts =>
    let req := batchRequest opts customRequestId systemPrompt userPrompt
    if s.requestCount ≥ maxRequestCount then
      (some (ErrExceedsFileLimit.WithError "exceeds request limit"), s)
    else
      match marshal req with
      | .error err => (some (ErrSerializeBatchRequest.WithError err), s)
      | .ok serialized =>
        let serialized := serialized ++ [10]
        let exceedsFileLimit : Bool :=
          decide (s.createBatchData.length + serialized.length > fileLimit)
        if exceedsFileLimit then
          (some ErrExceedsFileLimit, s)
        else
          (none, { s with createBatchData := s.createBatchData ++ serialized
                          requestCount := s.requestCount + 1 })

/-- The arguments of one `AddToBatch` call. -/
structure AddCall where
  customRequestId : String
  systemPrompt : String
  userPrompt : String
  options : List RequestOption

/-- The session after a sequence of `AddToBatch` calls, oldest first (errors are returned
to the caller and do not stop later calls). -/
def GptBatchSession.addAll
    (marshal : gptBatchSingleRequest → Except String (List UInt8))
    (s : GptBatchSession) (calls : List AddCall) : GptBatchSession :=
  calls.foldl
    (fun s c => (s.AddToBatch marshal c.customRequestId c.systemPrompt c.userPrompt c.options).2) s

/-- A stand-in for `json.Marshal` on a request whose encoding is `n` bytes long. -/
def lineOfSize (n : ℕ) : gptBatchSingleRequest → Except String (List UInt8) :=
  fun _ => .ok (List.replicate n 97)

/-- The client `NewGpt` builds without options: model `gpt-4o`, seed 420, no cache
directory. -/
def defaultGpt : Gpt :=
  { model := "gpt-4o", seed := 420, cacheDir := "" }

/-- A session that already holds `n` accepted requests and the bytes `data`. -/
def sessionWith (n : ℕ) (data : List UInt8) : GptBatchSession :=
  { defaultGpt.NewBatchSession with requestCount := n, createBatchData := data }

/-- The serialized record `AddToBatch` appends for the call `c` (without the newline);
empty when an option or the serializer fails. -/
def requestLine (marshal : gptBatchSingleRequest → Except String (List UInt8))
    (s : GptBatchSession) (c : AddCall) : List UInt8 :=
  match applyOptions c.options s.initialOptions with
  | .error _ => []
  | .ok opts =>
    match marshal (batchRequest opts c.customRequestId c.systemPrompt c.userPrompt) with
    | .error _ => []
    | .ok serialized => serialized

/-- The serialized records of the calls of `calls` that `AddToBatch` accepts (returns
`nil` for), in call order. -/
def acceptedRecords (marshal : gptBatchSingleRequest → Except String (List UInt8)) :
    GptBatchSession → List AddCall → List (List UInt8)
  | _, [] => []
  | s, c :: rest =>
    let r := s.AddToBatch marshal c.customRequestId c.systemPrompt c.userPrompt c.options
    if r.1.isNone then requestLine marshal s c :: acceptedRecords marshal r.2 rest
    else acceptedRecords marshal r.2 rest

/-- Call `bytes.Split(data, []byte("\n"))`: the pieces between the newline bytes, one
more than there are newlines. -/
def bytesSplitNewline : List UInt8 → List (List UInt8)
  | [] => [[]]
  | b :: rest =>
    if b = 10 then [] :: bytesSplitNewline rest
    else
      match bytesSplitNewline rest with
      | [] => [[b]]
      | piece :: pieces => (b :: piece) :: pieces

/-- A stand-in for `json.Marshal` that writes the custom id of the request, one byte per
character. -/
def customIdMarshal (req : gptBatchSingleRequest) : Except String (List UInt8) :=
  .ok (req.CustomId.toList.map fun ch => ch.toNat.toUInt8)

/-! ## util.go, batch.go, files.go: the endpoint adapters -/

/-- An `*http.Request` as the adapters build it: method and URL. -/
structure HttpRequest where
  Method : String
  URL : String
  deriving DecidableEq

/-- An `*http.Response` as the adapters read it; `Body` is what `io.ReadAll(res.Body)`
returns. -/
structure HttpResponse where
  StatusCode : ℕ
  Status : String
  Body : Except String (List UInt8)

/-- Type `gptFileDeletionResponse`. -/
structure gptFileDeletionResponse where
  ID : String
  Object : String
  Deleted : Bool
  deriving DecidableEq

/-- Type `gptBatchesResponse`. -/
structure gptBatchesResponse where
  Object : String
  Data : List GptBatchResponse
  HasMore : Bool
  FirstId : String
  LastId : String
  deriving DecidableEq

/-- An element of `gptPromptResponse.Choices`; `Role` and `Content` are the fields of its
`Message` member, `Content` being the Go string as its bytes. -/
structure gptChoice where
  Role : String
  Content : List UInt8
  FinishReason : String
  Index : ℤ
  deriving DecidableEq

/-- Type `gptPromptResponse`, with the fields the session reads. -/
structure gptPromptResponse where
  Id : String
  Model : String
  Choices : List gptChoice
  deriving DecidableEq

/-- Type `gptBatchSingleResponse`; `StatusCode`, `RequestID` and `Body` are the fields of
its `Response` member. -/
structure gptBatchSingleResponse where
  ID : String
  CustomId : String
  StatusCode : ℤ
  RequestID : String
  Body : gptPromptResponse
  deriving DecidableEq

/-- What a call of `os.WriteFile` does: it returns `nil` and the file holds the data, or
it returns an error (a missing directory, say) and the file is untouched (`left = none`)
or left with the bytes `left`. -/
inductive WriteOutcome where
  | done
  | failed (err : String) (left : Option (List UInt8))
  deriving DecidableEq

/-- What the adapters and the session call outside the repository.  `newRequestError` is
the error of `http.NewRequest` for a method and URL, if any; `Do history req` is what
`c.Do(req)` returns after the requests `history` were sent earlier; `pathJoin` is
`path.Join`; `writeFile path data` is what `os.WriteFile(path, data, 0644)` does; the
other fields are `json.Unmarshal` and `json.Marshal` at the types used. -/
structure Env where
  newRequestError : String → String → Option String
  Do : List HttpRequest → HttpRequest → Except String HttpResponse
  pathJoin : String → String → String
  writeFile : String → List UInt8 → WriteOutcome
  unmarshalBatch : List UInt8 → Except String GptBatchResponse
  unmarshalBatches : List UInt8 → Except String gptBatchesResponse
  unmarshalDeletion : List UInt8 → Except String gptFileDeletionResponse
  unmarshalLine : List UInt8 → Except String gptBatchSingleResponse
  marshalBatch : GptBatchResponse → List UInt8

/-- What the session shares with the outside: the files of the cache directory by path,
and the requests handed to `c.Do` so far, oldest first. -/
structure World where
  disk : List (String × List UInt8)
  requests : List HttpRequest
  deriving DecidableEq

/-- Call `http.NewRequest(method, url, nil)`. -/
def NewRequest (env : Env) (method url : String) : Except String HttpRequest :=
  match env.newRequestError method url with
  | some err => .error err
  | none => .ok { Method := method, URL := url }

/-- Call `os.WriteFile(path, data, 0644)` as the session uses it: an error is only
logged. -/
def World.WriteFile (env : Env) (w : World) (path : String) (data : List UInt8) : World :=
  match env.writeFile path data with
  | .done => { w with disk := (path, data) :: w.disk }
  | .failed _ none => w
  | .failed _ (some left) => { w with disk := (path, left) :: w.disk }

/-- Call `c.Do(req)`: the request is recorded and answered. -/
def World.Do (env : Env) (w : World) (req : HttpRequest) :
    Except String HttpResponse × World :=
  (env.Do w.requests req, { w with requests := w.requests ++ [req] })

/-- Conversion `string(body)` for an error text, one character per byte. -/
def bytesText (body : List UInt8) : String :=
  String.mk (body.map fun b => Char.ofNat b.toNat)

/-- Constant `http.StatusNotFound`. -/
def StatusNotFound : ℕ := 404

/-- Function `parseResponse`; `unmarshal` is `json.Unmarshal` at the type `T`. -/
def parseResponse {T : Type} (unmarshal : List UInt8 → Except String T)
    (res : HttpResponse) : Except String T :=
  match res.Body with
  | .error err => .error ("could not decode body: " ++ err)
  | .ok body =>
    if res.StatusCode ≠ StatusOK then
      .error ("server responded with non-OK status (" ++ res.Status ++ "): "
        ++ bytesText body)
    else
      match unmarshal body with
      | .error err => .error ("could not parse response: " ++ err)
      | .ok val => .ok val

/-- Error value `ErrRequestBatch`. -/
def ErrRequestBatch : TraceableError :=
  goerrorNew "gpt:retrieve_batch" "Failed to retrieve batch"

/-- Error value `ErrRequestFile`. -/
def ErrRequestFile : TraceableError :=
  goerrorNew "gpt:request_file" "failed to request files"

/-- Error value `ErrDeleteFile`. -/
def ErrDeleteFile : TraceableError :=
  goerrorNew "gpt:delete_file" "Failed to delete file"

/-- Function `deleteFile`: the returned error (`none` for `nil`) and the world
afterwards. -/
def deleteFile (env : Env) (w : World) (fileId : String) : Option TraceableError × World :=
  let url := "https://api.openai.com/v1/files/" ++ fileId
  match NewRequest env "DELETE" url with
  | .error err => (some (ErrDeleteFile.WithError ("failed to create request: " ++ err)), w)
  | .ok req =>
    match w.Do env req with
    | (.error err, w) =>
      (some (ErrDeleteFile.WithError ("failed to request deletion: " ++ err)), w)
    | (.ok resp, w) =>
      if resp.StatusCode = StatusNotFound then
        -- probably already deleted
        (none, w)
      else if resp.StatusCode ≠ StatusOK then
        (some (ErrDeleteFile.WithError
          ("server responded with non-OK status (" ++ resp.Status ++ ")")), w)
      else
        match parseResponse env.unmarshalDeletion resp with
        | .error err => (some (ErrDeleteFile.WithError err), w)
        | .ok data =>
          if !data.Deleted then
            (some (ErrDeleteFile.WithError "file was not deleted"), w)
          else (none, w)

/-- The URL `retrieveBatches` requests for a cursor. -/
def batchesURL (cursor : String) : String :=
  let url := "https://api.openai.com/v1/batches&limit=100"
  if cursor ≠ "" then url ++ "&after=" ++ cursor else url

/-- The `for` loop of `retrieveBatches`; `fuel` bounds the number of pages and `none`
means the bound was hit. -/
def retrieveBatches.loop (env : Env) :
    ℕ → World → List GptBatchResponse → String →
      Option (Except TraceableError (List GptBatchResponse) × World)
  | 0, _, _, _ => none
  | fuel + 1, w, batches, cursor =>
    match NewRequest env "GET" (batchesURL cursor) with
    | .error err => some (.error (ErrRequestBatch.WithError err), w)
    | .ok req =>
      match w.Do env req with
      | (.error err, w) => some (.error (ErrRequestBatch.WithError err), w)
      | (.ok resp, w) =>
        match parseResponse env.unmarshalBatches resp with
        | .error err => some (.error (ErrRequestBatch.WithError err), w)
        | .ok decodedResponse =>
          let batches := batches ++ decodedResponse.Data
          if !decodedResponse.HasMore then some (.ok batches, w)
          else retrieveBatches.loop env fuel w batches decodedResponse.LastId

/-- Function `retrieveBatches`: the loop entered with no batches and an empty cursor. -/
def retrieveBatches (env : Env) (fuel : ℕ) (w : World) :
    Option (Except TraceableError (List GptBatchResponse) × World) :=
  retrieveBatches.loop env fuel w [] ""

/-- Function `retrieveBatch`. -/
def retrieveBatch (env : Env) (w : World) (batchId : String) :
    Except TraceableError GptBatchResponse × World :=
  let url := "https://api.openai.com/v1/batches/" ++ batchId
  match NewRequest env "GET" url with
  | .error err => (.error (ErrRequestBatch.WithError err), w)
  | .ok req =>
    match w.Do env req with
    | (.error err, w) => (.error (ErrRequestBatch.WithError err), w)
    | (.ok resp, w) =>
      match parseResponse env.unmarshalBatch resp with
      | .error err => (.error (ErrRequestBatch.WithError err), w)
      | .ok decodedResponse => (.ok decodedResponse, w)

/-- Function `retrieveFileContent`. -/
def retrieveFileContent (env : Env) (w : World) (fileId : String) :
    Except TraceableError (List UInt8) × World :=
  let url := "https://api.openai.com/v1/files/" ++ fileId ++ "/content"
  match NewRequest env "GET" url with
  | .error err => (.error (ErrRequestFile.WithError ("failed to create request: " ++ err)), w)
  | .ok req =>
    match w.Do env req with
    | (.error err, w) => (.error (ErrRequestFile.WithError ("failed to request: " ++ err)), w)
    | (.ok resp, w) =>
      if resp.StatusCode ≠ StatusOK then
        (.error (ErrRequestFile.WithError
          ("server responded with non-OK status (" ++ resp.Status ++ ")")), w)
      else
        match resp.Body with
        | .error err =>
          (.error (ErrRequestFile.WithError ("could not decode body: " ++ err)), w)
        | .ok data => (.ok data, w)

/-! ## batchsession.go: retrieving a result -/

/-- Error value `ErrBatchFailed`. -/
def ErrBatchFailed : TraceableError :=
  goerrorNew "gpt:batch_failed" "Batch failed"

/-- Error value `ErrBatchNotCompleted`. -/
def ErrBatchNotCompleted : TraceableError :=
  goerrorNew "gpt:batch_not_completed" "Batch not completed yet"

/-- Error value `ErrParseBatchLine`. -/
def ErrParseBatchLine : TraceableError :=
  goerrorNew "gpt:parse_batch_line" "failed to parse batch line"

/-- Constant `BatchStatusComplete`. -/
def BatchStatusComplete : String := "completed"

/-- The closure `loadFromPersistentCache` of `getBatch`: `none` when it returns an error
(the file is missing or does not decode). -/
def GptBatchSession.loadBatchFromPersistentCache (env : Env) (s : GptBatchSession)
    (w : World) (batchId : String) : Option GptBatchResponse :=
  match w.disk.lookup (env.pathJoin s.cacheDir (batchId ++ ".json")) with
  | none => none
  | some data =>
    match env.unmarshalBatch data with
    | .error _ => none
    | .ok result => some result

/-- Method `getBatch`: the returned pair, the session and the world afterwards. -/
def GptBatchSession.getBatch (env : Env) (s : GptBatchSession) (w : World)
    (batchId : String) : Except TraceableError GptBatchResponse × GptBatchSession × World :=
  -- check session cache
  match s.batches.lookup batchId with
  | some batch => (.ok batch, s, w)
  | none =>
    -- check persistent cache
    match (if s.cacheDir ≠ "" then s.loadBatchFromPersistentCache env w batchId else none) with
    | some result => (.ok result, { s with batches := (batchId, result) :: s.batches }, w)
    | none =>
      match retrieveBatch env w batchId with
      | (.error err, w) => (.error err, s, w)
      | (.ok result, w) =>
        -- fill session cache
        let s := { s with batches := (batchId, result) :: s.batches }
        -- fill persistent cache if completed
        if s.cacheDir ≠ "" ∧ result.Status = BatchStatusComplete then
          (.ok result, s,
            w.WriteFile env (env.pathJoin s.cacheDir (batchId ++ ".json"))
              (env.marshalBatch result))
        else (.ok result, s, w)

/-- Method `getFile`: the returned pair, the session and the world afterwards. -/
def GptBatchSession.getFile (env : Env) (s : GptBatchSession) (w : World)
    (fileId : String) : Except TraceableError (List UInt8) × GptBatchSession × World :=
  -- check session cache
  match s.files.lookup fileId with
  | some file => (.ok file, s, w)
  | none =>
    -- check persistent cache
    match (if s.cacheDir ≠ "" then
             w.disk.lookup (env.pathJoin s.cacheDir (fileId ++ ".jsonl"))
           else none) with
    | some data => (.ok data, { s with files := (fileId, data) :: s.files }, w)
    | none =>
      match retrieveFileContent env w fileId with
      | (.error err, w) => (.error err, s, w)
      | (.ok data, w) =>
        let s := { s with files := (fileId, data) :: s.files }
        if s.cacheDir ≠ "" then
          (.ok data, s, w.WriteFile env (env.pathJoin s.cacheDir (fileId ++ ".jsonl")) data)
        else (.ok data, s, w)

/-- The error `RetrieveBatchedRequest` returns for a job with status `failed`:
`ErrBatchFailed` wrapping the join of `code: message` over the job's errors, or wrapping
nothing when there are none. -/
def batchFailedError (batch : GptBatchResponse) : TraceableError :=
  let batchErr : Option String :=
    match batch.Errors with
    | none => none
    | some data =>
      if data.length > 0 then
        some (String.intercalate "\n" (data.map fun e => e.Code ++ ": " ++ e.Message))
      else none
  { ErrBatchFailed with cause := batchErr }

/-- The end of `RetrieveBatchedRequest`, from `bytes.Split` on: the addressed line of the
artifact is decoded and the content of its first choice returned. -/
def resolveLine (env : Env) (file : List UInt8) (lineIdx : ℤ) :
    Except TraceableError (List UInt8) :=
  let lines := bytesSplitNewline file
  if lineIdx < 0 ∨ lineIdx ≥ lines.length then
    .error (ErrParseBatchLine.WithError
      ("line index out of bounds[0," ++ toString ((lines.length : ℤ) - 1) ++ "]: "
        ++ toString lineIdx))
  else
    let rawResponse := lines.getD lineIdx.toNat []
    match env.unmarshalLine rawResponse with
    | .error err =>
      .error (ErrParseBatchLine.WithError ("failed to decode response: " ++ err))
    | .ok response =>
      if response.StatusCode ≠ 200 then
        .error (ErrParseBatchLine.WithError
          ("server responded with non-OK status: " ++ toString response.StatusCode))
      else if response.Body.Choices.length = 0 then
        .error (ErrParseBatchLine.WithError "gpt is clueless")
      else
        match response.Body.Choices with
        | [] => .ok []
        | choice :: _ => .ok choice.Content

/-- Method `RetrieveBatchedRequest`: the returned pair, the session and the world
afterwards. -/
def GptBatchSession.RetrieveBatchedRequest (env : Env) (s : GptBatchSession) (w : World)
    (batchId : String) (lineIdx : ℤ) :
    Except TraceableError (List UInt8) × GptBatchSession × World :=
  match s.getBatch env w batchId with
  | (.error err, s, w) => (.error err, s, w)
  | (.ok batch, s, w) =>
    if batch.Status = "failed" then
      (.error (batchFailedError batch), s, w)
    else if batch.Status ≠ "completed" then
      (.error ErrBatchNotCompleted, s, w)
    else
      match batch.OutputFileID with
      | none => (.error (ErrRequestBatch.WithError "no output file ID"), s, w)
      | some outputFileID =>
        match s.getFile env w outputFileID with
        | (.error err, s, w) => (.error err, s, w)
        | (.ok file, s, w) => (resolveLine env file lineIdx, s, w)

/-- The session and world after a sequence of `RetrieveBatchedRequest` calls, oldest
first. -/
def GptBatchSession.retrieveAll (env : Env) (s : GptBatchSession) (w : World)
    (calls : List (String × ℤ)) : GptBatchSession × World :=
  calls.foldl
    (fun sw c => (GptBatchSession.RetrieveBatchedRequest env sw.1 sw.2 c.1 c.2).2) (s, w)

/-- Three calls with the custom ids `a`, `b`, `c` and no options. -/
def threeCalls : List AddCall :=
  [{ customRequestId := "a", systemPrompt := "sys", userPrompt := "one", options := [] },
   { customRequestId := "b", systemPrompt := "sys", userPrompt := "two", options := [] },
   { customRequestId := "c", systemPrompt := "sys", userPrompt := "three", options := [] }]

/-- A session that holds a completed job with this output artifact, both in memory. -/
def GptBatchSession.holdsCompleted (s : GptBatchSession) (batchId : String)
    (batch : GptBatchResponse) (fileId : String) (file : List UInt8) : Prop :=
  s.batches.lookup batchId = some batch ∧ batch.Status = "completed"
    ∧ batch.OutputFileID = some fileId ∧ s.files.lookup fileId = some file

/-- A stand-in for `json.Unmarshal` on a result line: empty input is an error, any other
line decodes to a status-200 response whose only choice has the line as content. -/
def echoLine (line : List UInt8) : Except String gptBatchSingleResponse :=
  if line = [] then .error "unexpected end of JSON input"
  else
    .ok { ID := "", CustomId := "", StatusCode := 200, RequestID := ""
          Body := { Id := "", Model := ""
                    Choices := [{ Role := "assistant", Content := line
                                  FinishReason := "stop", Index := 0 }] } }

/-- An environment without a network: every `c.Do` fails; result lines decode by
`echoLine`. -/
def offlineEnv : Env :=
  { newRequestError := fun _ _ => none
    Do := fun _ _ => .error "offline"
    pathJoin := fun dir name => dir ++ "/" ++ name
    writeFile := fun _ _ => .done
    unmarshalBatch := fun _ => .error "unexpected end of JSON input"
    unmarshalBatches := fun _ => .error "unexpected end of JSON input"
    unmarshalDeletion := fun _ => .error "unexpected end of JSON input"
    unmarshalLine := echoLine
    marshalBatch := fun _ => [] }

/-- A job record with the given status, errors and output artifact `file_1`. -/
def jobWith (status : String) (errors : Option (List gptBatchError)) : GptBatchResponse :=
  { ID := "batch_1", Errors := errors, Status := status, OutputFileID := some "file_1" }

/-- A session whose memory holds the job `batch_1` and the artifact `file_1`. -/
def cachedSession (job : GptBatchResponse) (file : List UInt8) : GptBatchSession :=
  { defaultGpt.NewBatchSession with
    batches := [("batch_1", job)], files := [("file_1", file)] }

/-- A world with an empty cache directory and no request sent. -/
def emptyWorld : World := { disk := [], requests := [] }

/-- A job with status `failed` and two per-line errors. -/
def failedJob : GptBatchResponse :=
  jobWith "failed"
    (some [{ Code := "invalid_json", Message := "line 3", Param := "", Line := 3 },
           { Code := "too_long", Message := "line 7", Param := "", Line := 7 }])

/-- A stand-in for `json.Unmarshal` on a job record: the body `[1]` is a completed job,
`[2]` one in progress, anything else does not decode. -/
def toyUnmarshalBatch (body : List UInt8) : Except String GptBatchResponse :=
  if body = [1] then .ok (jobWith "completed" none)
  else if body = [2] then .ok (jobWith "in_progress" none)
  else .error "invalid character"

/-- An environment whose server knows the completed job `batch_1` and its artifact
`file_1` of two lines. -/
def liveEnv : Env :=
  { newRequestError := fun _ _ => none
    Do := fun _ req =>
      if req.URL = "https://api.openai.com/v1/batches/batch_1" then
        .ok { StatusCode := 200, Status := "200 OK", Body := .ok [1] }
      else if req.URL = "https://api.openai.com/v1/files/file_1/content" then
        .ok { StatusCode := 200, Status := "200 OK", Body := .ok [97, 10, 98, 10] }
      else .error "no route"
    pathJoin := fun dir name => dir ++ "/" ++ name
    writeFile := fun _ _ => .done
    unmarshalBatch := toyUnmarshalBatch
    unmarshalBatches := fun _ => .error "invalid character"
    unmarshalDeletion := fun _ => .error "invalid character"
    unmarshalLine := echoLine
    marshalBatch := fun _ => [1] }

/-- An environment whose server reports `batch_1` as in progress to the first request it
receives and as completed to every later one. -/
def pollingEnv : Env :=
  { liveEnv with
    Do := fun history req =>
      if req.URL = "https://api.openai.com/v1/batches/batch_1" then
        if history = [] then .ok { StatusCode := 200, Status := "200 OK", Body := .ok [2] }
        else .ok { StatusCode := 200, Status := "200 OK", Body := .ok [1] }
      else .error "no route" }

/-- The request `retrieveBatch` sends for `batch_1`. -/
def jobRequest : HttpRequest :=
  { Method := "GET", URL := "https://api.openai.com/v1/batches/batch_1" }

/-- The request `retrieveFileContent` sends for `file_1`. -/
def artifactRequest : HttpRequest :=
  { Method := "GET", URL := "https://api.openai.com/v1/files/file_1/content" }

/-- The environment `liveEnv` on a machine where the cache directory does not exist, so
that every `os.WriteFile` fails. -/
def noDirEnv : Env :=
  { liveEnv with writeFile := fun _ _ => .failed "no such file or directory" none }

/-- A fresh session of a client with the cache directory `cache`. -/
def diskSession : GptBatchSession :=
  Gpt.NewBatchSession { defaultGpt with cacheDir := "cache" }

/-- The query of a URL as `net/url` splits it off: the text after the first `?`, empty when
there is none. -/
def rawQuery (url : String) : String :=
  String.mk ((url.toList.dropWhile fun ch => ch ≠ '?').drop 1)

/-- An environment whose server answers every request with status 404. -/
def goneEnv : Env :=
  { offlineEnv with
    Do := fun _ _ => .ok { StatusCode := 404, Status := "404 Not Found", Body := .ok [] } }

/-- A job record with the given id and status `completed`. -/
def jobNamed (id : String) : GptBatchResponse :=
  { ID := id, Errors := none, Status := "completed", OutputFileID := none }

/-- An environment whose server holds three jobs on two pages and serves them at exactly
the two URLs `retrieveBatches` builds; body `[1]` decodes to the first page, `[2]` to the
second. -/
def twoPageEnv : Env :=
  { offlineEnv with
    Do := fun _ req =>
      if req.URL = "https://api.openai.com/v1/batches&limit=100" then
        .ok { StatusCode := 200, Status := "200 OK", Body := .ok [1] }
      else if req.URL = "https://api.openai.com/v1/batches&limit=100&after=batch_2" then
        .ok { StatusCode := 200, Status := "200 OK", Body := .ok [2] }
      else .error "no route"
    unmarshalBatches := fun body =>
      if body = [1] then
        .ok { Object := "list", Data := [jobNamed "batch_1", jobNamed "batch_2"]
              HasMore := true, FirstId := "batch_1", LastId := "batch_2" }
      else if body = [2] then
        .ok { Object := "list", Data := [jobNamed "batch_3"]
              HasMore := false, FirstId := "batch_3", LastId := "batch_3" }
      else .error "invalid character" }

/-! ## Properties of the congestion controller -/

theorem adjustModeAndBackoff_throttled (rt : BackoffRoundTripper) :
    adjustModeAndBackoff rt StatusTooManyRequests =
      { rt with
        sequentialMode := true
        backoff := min rt.maxBackoff
          (Duration.mulFloat (max rt.backoff rt.defaultBackoff) rt.backoffFactor) } := by
  unfold adjustModeAndBackoff
  simp only [StatusOK, StatusTooManyRequests]
  by_cases h1 : rt.backoff < rt.defaultBackoff
  · have hmax : max rt.backoff rt.defaultBackoff = rt.defaultBackoff := max_eq_right h1.le
    by_cases h2 : rt.maxBackoff < Duration.mulFloat rt.defaultBackoff rt.backoffFactor
    · simp [h1, h2, hmax, min_eq_left h2.le]
    · simp [h1, h2, hmax, min_eq_right (not_lt.mp h2)]
  · have hmax : max rt.backoff rt.defaultBackoff = rt.backoff := max_eq_left (not_lt.mp h1)
    by_cases h2 : rt.maxBackoff < Duration.mulFloat rt.backoff rt.backoffFactor
    · simp [h1, h2, hmax, min_eq_left h2.le]
    · simp [h1, h2, hmax, min_eq_right (not_lt.mp h2)]

theorem adjustModeAndBackoff_ok (rt : BackoffRoundTripper) :
    adjustModeAndBackoff rt StatusOK =
      if rt.successSeq + 1 < 10 then { rt with successSeq := rt.successSeq + 1 }
      else if Duration.divFloat rt.backoff rt.backoffFactor < rt.defaultBackoff then
        { rt with successSeq := rt.successSeq + 1
                  backoff := rt.defaultBackoff
                  sequentialMode := false }
      else
        { rt with successSeq := rt.successSeq + 1
                  backoff := Duration.divFloat rt.backoff rt.backoffFactor } := by
  unfold adjustModeAndBackoff
  simp only [StatusOK, StatusTooManyRequests]
  by_cases h1 : rt.successSeq + 1 < 10
  · simp [h1]
  · by_cases h2 : Duration.divFloat rt.backoff rt.backoffFactor < rt.defaultBackoff
    · simp [h1, h2]
    · simp [h1, h2]

theorem adjustModeAndBackoff_other (rt : BackoffRoundTripper) (statusCode : ℕ)
    (h200 : statusCode ≠ StatusOK) (h429 : statusCode ≠ StatusTooManyRequests) :
    adjustModeAndBackoff rt statusCode = rt := by
  unfold adjustModeAndBackoff
  simp [h200, h429]

theorem adjustAll_snoc (rt : BackoffRoundTripper) (l : List ℕ) (c : ℕ) :
    adjustAll rt (l ++ [c]) = adjustModeAndBackoff (adjustAll rt l) c := by
  simp [adjustAll, List.foldl_append]

theorem adjustAll_replicate_succ (rt : BackoffRoundTripper) (n c : ℕ) :
    adjustAll rt (List.replicate (n + 1) c)
      = adjustModeAndBackoff (adjustAll rt (List.replicate n c)) c := by
  rw [List.replicate_succ', adjustAll_snoc]

theorem adjustModeAndBackoff_sameConfig (rt : BackoffRoundTripper) (c : ℕ) :
    sameConfig (adjustModeAndBackoff rt c) rt := by
  by_cases h429 : c = StatusTooManyRequests
  · subst h429
    rw [adjustModeAndBackoff_throttled]
    exact ⟨rfl, rfl, rfl, rfl⟩
  · by_cases h200 : c = StatusOK
    · subst h200
      rw [adjustModeAndBackoff_ok]
      split_ifs <;> exact ⟨rfl, rfl, rfl, rfl⟩
    · rw [adjustModeAndBackoff_other rt c h200 h429]
      exact ⟨rfl, rfl, rfl, rfl⟩

theorem adjustAll_sameConfig (rt : BackoffRoundTripper) (l : List ℕ) :
    sameConfig (adjustAll rt l) rt := by
  induction l using List.reverseRecOn with
  | nil => exact ⟨rfl, rfl, rfl, rfl⟩
  | append_singleton l c ih =>
    rw [adjustAll_snoc]
    obtain ⟨h1, h2, h3, h4⟩ := adjustModeAndBackoff_sameConfig (adjustAll rt l) c
    obtain ⟨i1, i2, i3, i4⟩ := ih
    exact ⟨h1.trans i1, h2.trans i2, h3.trans i3, h4.trans i4⟩

theorem adjustAll_ok_successSeq (rt : BackoffRoundTripper) (n : ℕ) :
    (adjustAll rt (List.replicate n StatusOK)).successSeq = rt.successSeq + n := by
  induction n with
  | zero => rfl
  | succ n ih =>
    rw [adjustAll_replicate_succ, adjustModeAndBackoff_ok]
    split_ifs <;> simp [ih] <;> omega

theorem Duration.ofFloat_of_range (v : ℤ) (h1 : MinInt64 ≤ v) (h2 : v ≤ MaxInt64) :
    Duration.ofFloat v = v := by
  unfold Duration.ofFloat
  rw [if_pos ⟨h1, h2⟩]

theorem Duration.mulFloat_of_nonneg (d : Duration) (f : Float64) (hden : 0 < f.den)
    (hd : 0 ≤ d) (hr : d * f.num / f.den ≤ MaxInt64) :
    Duration.mulFloat d f = d * f.num / f.den := by
  have hnum : (0 : ℤ) ≤ d * f.num := Int.mul_nonneg hd (Int.ofNat_nonneg _)
  have hq : (0 : ℤ) ≤ d * f.num / f.den := Int.ediv_nonneg hnum (Int.ofNat_nonneg _)
  unfold Duration.mulFloat
  rw [if_neg (by omega), Int.tdiv_eq_ediv hnum (Int.ofNat_nonneg _),
    Duration.ofFloat_of_range _ (le_trans (by decide) hq) hr]

theorem Duration.divFloat_of_range (d : Duration) (f : Float64) (hnum : 0 < f.num)
    (h1 : MinInt64 ≤ Int.tdiv (d * f.den) f.num) (h2 : Int.tdiv (d * f.den) f.num ≤ MaxInt64) :
    Duration.divFloat d f = Int.tdiv (d * f.den) f.num := by
  unfold Duration.divFloat
  rw [if_neg (by omega), Duration.ofFloat_of_range _ h1 h2]

theorem Duration.divFloat_of_exact (d : Duration) (f : Float64) (hnum : 0 < f.num)
    (hd : 0 ≤ d) (hr : d * f.den + f.num < 2 ^ 53) :
    Duration.divFloat d f = d * f.den / f.num := by
  have hprod : (0 : ℤ) ≤ d * f.den := Int.mul_nonneg hd (Int.ofNat_nonneg _)
  have hnum' : (0 : ℤ) ≤ f.num := Int.ofNat_nonneg _
  have hq0 : (0 : ℤ) ≤ d * f.den / f.num := Int.ediv_nonneg hprod hnum'
  have hq1 : d * f.den / f.num ≤ d * f.den := Int.ediv_le_self _ hprod
  have h53 : (2 : ℤ) ^ 53 = 9007199254740992 := by norm_num
  have hmax : (9007199254740992 : ℤ) ≤ MaxInt64 := by decide
  rw [h53] at hr
  have hr' : (d * f.den : ℤ) + (f.num : ℤ) < 9007199254740992 := hr
  have hb : (d * f.den : ℤ) ≤ 9007199254740992 := by linarith
  have heq := Int.tdiv_eq_ediv hprod hnum'
  rw [Duration.divFloat_of_range d f hnum (by rw [heq]; exact le_trans (by decide) hq0)
    (by rw [heq]; exact le_trans hq1 (le_trans hb hmax)), heq]

theorem Duration.le_mulFloat (d : Duration) (f : Float64) (hden : 0 < f.den)
    (hf : f.den ≤ f.num) (hd : 0 ≤ d) (hr : d * f.num / f.den ≤ MaxInt64) :
    d ≤ Duration.mulFloat d f := by
  rw [Duration.mulFloat_of_nonneg d f hden hd hr]
  have hden' : (0 : ℤ) < f.den := by exact_mod_cast hden
  have hf' : (f.den : ℤ) ≤ f.num := by exact_mod_cast hf
  exact Int.le_ediv_of_mul_le hden' (Int.mul_le_mul_of_nonneg_left hf' hd)

theorem Duration.divFloat_lt (d : Duration) (f : Float64) (hd : 0 < d)
    (hf : f.den < f.num) : Duration.divFloat d f < d := by
  have hnum : (0 : ℤ) < f.num := by
    have : 0 < f.num := lt_of_le_of_lt (Nat.zero_le _) hf
    exact_mod_cast this
  have hf' : (f.den : ℤ) < f.num := by exact_mod_cast hf
  have hprod : (0 : ℤ) ≤ d * f.den := Int.mul_nonneg hd.le (Int.ofNat_nonneg _)
  have hq : d * f.den / f.num < d :=
    Int.ediv_lt_of_lt_mul hnum (Int.mul_lt_mul_of_pos_left hf' hd)
  unfold Duration.divFloat Duration.ofFloat
  rw [if_neg (by omega), Int.tdiv_eq_ediv hprod hnum.le]
  split_ifs
  · exact hq
  · exact lt_trans (by decide) hd

theorem adjustAll_throttled_backoff_le (rt : BackoffRoundTripper) (n : ℕ)
    (h0 : rt.backoff ≤ rt.maxBackoff) :
    (adjustAll rt (List.replicate n StatusTooManyRequests)).backoff ≤ rt.maxBackoff := by
  cases n with
  | zero => exact h0
  | succ n =>
    rw [adjustAll_replicate_succ, adjustModeAndBackoff_throttled]
    have hc := adjustAll_sameConfig rt (List.replicate n StatusTooManyRequests)
    simp only [hc.2.2.1]
    exact min_le_left _ _

theorem adjustModeAndBackoff_throttled_step (rt : BackoffRoundTripper)
    (hden : 0 < rt.backoffFactor.den) (hf : rt.backoffFactor.den ≤ rt.backoffFactor.num)
    (hd : rt.defaultBackoff ≤ rt.maxBackoff)
    (hr : rt.maxBackoff * rt.backoffFactor.num / rt.backoffFactor.den ≤ 2 ^ 53)
    (h0 : 0 ≤ rt.backoff) (h1 : rt.backoff ≤ rt.maxBackoff) :
    rt.backoff ≤ (adjustModeAndBackoff rt StatusTooManyRequests).backoff
    ∧ 0 ≤ (adjustModeAndBackoff rt StatusTooManyRequests).backoff
    ∧ (adjustModeAndBackoff rt StatusTooManyRequests).backoff ≤ rt.maxBackoff := by
  rw [adjustModeAndBackoff_throttled]
  simp only
  have hm0 : 0 ≤ max rt.backoff rt.defaultBackoff := le_trans h0 (le_max_left _ _)
  have hm1 : max rt.backoff rt.defaultBackoff ≤ rt.maxBackoff := max_le h1 hd
  have hden' : (0 : ℤ) < rt.backoffFactor.den := by exact_mod_cast hden
  have hprod : max rt.backoff rt.defaultBackoff * rt.backoffFactor.num
      / rt.backoffFactor.den ≤ MaxInt64 := by
    have hmono : max rt.backoff rt.defaultBackoff * rt.backoffFactor.num
        / rt.backoffFactor.den
        ≤ rt.maxBackoff * rt.backoffFactor.num / rt.backoffFactor.den :=
      Int.ediv_le_ediv hden' (Int.mul_le_mul_of_nonneg_right hm1 (Int.ofNat_nonneg _))
    exact le_trans hmono (le_trans hr (by decide))
  have hle := Duration.le_mulFloat _ rt.backoffFactor hden hf hm0 hprod
  have hb : rt.backoff ≤ Duration.mulFloat (max rt.backoff rt.defaultBackoff)
      rt.backoffFactor := le_trans (le_max_left _ _) hle
  exact ⟨le_min h1 hb, le_min (le_trans h0 h1) (le_trans h0 hb), min_le_left _ _⟩

theorem adjustAll_throttled_range (rt : BackoffRoundTripper)
    (hden : 0 < rt.backoffFactor.den) (hf : rt.backoffFactor.den ≤ rt.backoffFactor.num)
    (hd : rt.defaultBackoff ≤ rt.maxBackoff)
    (hr : rt.maxBackoff * rt.backoffFactor.num / rt.backoffFactor.den ≤ 2 ^ 53)
    (h0 : 0 ≤ rt.backoff) (h1 : rt.backoff ≤ rt.maxBackoff) (n : ℕ) :
    0 ≤ (adjustAll rt (List.replicate n StatusTooManyRequests)).backoff
    ∧ (adjustAll rt (List.replicate n StatusTooManyRequests)).backoff ≤ rt.maxBackoff := by
  induction n with
  | zero => exact ⟨h0, h1⟩
  | succ n ih =>
    have hc := adjustAll_sameConfig rt (List.replicate n StatusTooManyRequests)
    have hstep := adjustModeAndBackoff_throttled_step
      (adjustAll rt (List.replicate n StatusTooManyRequests))
      (by rw [hc.1]; exact hden) (by rw [hc.1]; exact hf)
      (by rw [hc.2.1, hc.2.2.1]; exact hd) (by rw [hc.1, hc.2.2.1]; exact hr)
      ih.1 (by rw [hc.2.2.1]; exact ih.2)
    rw [adjustAll_replicate_succ]
    rw [hc.2.2.1] at hstep
    exact ⟨hstep.2.1, hstep.2.2⟩

/-- Claim C1, evaluated on the code: a 429 response never changes `successSeq`.  From a
controller with `successSeq = 9` and a backoff of 2s it raises the backoff to 4s but
leaves `successSeq` at 9 (it is not reset to 0), so the single 200 response that follows
already lowers the backoff. -/
theorem throttled_keeps_successSeq :
    (∀ rt : BackoffRoundTripper,
        (adjustModeAndBackoff rt StatusTooManyRequests).successSeq = rt.successSeq)
    ∧ (adjustModeAndBackoff (throttledWith (2 * Second) 9) StatusTooManyRequests).successSeq
        = 9
    ∧ (adjustModeAndBackoff (throttledWith (2 * Second) 9) StatusTooManyRequests).backoff
        = 4 * Second
    ∧ (adjustAll (throttledWith (2 * Second) 9) [StatusTooManyRequests, StatusOK]).backoff
        = 2 * Second := by
  refine ⟨fun rt => ?_, by decide, by decide, by decide⟩
  rw [adjustModeAndBackoff_throttled]

/-- Claim C2 as stated fails: in an all-200 run from a controller with a backoff of 8s and
`successSeq = 0`, the tenth and the eleventh response both lower the backoff, so two
successive decreases are separated by a single success. -/
theorem decay_spacing_counterexample :
    ¬ (∀ (rt : BackoffRoundTripper) (i j : ℕ), i < j →
        decreasesAt rt i → decreasesAt rt j → i + 10 ≤ j) := by
  intro h
  have := h (throttledWith (8 * Second) 0) 9 10 (by decide) (by decide) (by decide)
  omega

/-- Claim C2, amended: in an all-200 run the response that brings `successSeq` to a value
below 10 leaves the backoff unchanged, and every response that brings it to 10 or more
divides the backoff by the factor (set to the minimum when the quotient is below it);
the counter is not reset by a decay.  Hence a decrease happens only once the count has
reached 10. -/
theorem decay_after_threshold (rt : BackoffRoundTripper) (k : ℕ) :
    (adjustAll rt (List.replicate (k + 1) StatusOK)).successSeq = rt.successSeq + k + 1
    ∧ (adjustAll rt (List.replicate (k + 1) StatusOK)).backoff =
        (if rt.successSeq + k + 1 < 10 then
          (adjustAll rt (List.replicate k StatusOK)).backoff
        else if Duration.divFloat (adjustAll rt (List.replicate k StatusOK)).backoff
            rt.backoffFactor < rt.defaultBackoff then rt.defaultBackoff
        else Duration.divFloat (adjustAll rt (List.replicate k StatusOK)).backoff
            rt.backoffFactor)
    ∧ (decreasesAt rt k → 10 ≤ rt.successSeq + k + 1) := by
  have hseq := adjustAll_ok_successSeq rt k
  have hc := adjustAll_sameConfig rt (List.replicate k StatusOK)
  have hstep : (adjustAll rt (List.replicate (k + 1) StatusOK)).backoff =
        (if rt.successSeq + k + 1 < 10 then
          (adjustAll rt (List.replicate k StatusOK)).backoff
        else if Duration.divFloat (adjustAll rt (List.replicate k StatusOK)).backoff
            rt.backoffFactor < rt.defaultBackoff then rt.defaultBackoff
        else Duration.divFloat (adjustAll rt (List.replicate k StatusOK)).backoff
            rt.backoffFactor) := by
    rw [adjustAll_replicate_succ, adjustModeAndBackoff_ok, hseq, hc.1, hc.2.1]
    split_ifs <;> rfl
  refine ⟨by rw [adjustAll_ok_successSeq]; omega, hstep, ?_⟩
  intro hdec
  unfold decreasesAt at hdec
  by_contra hlt
  rw [hstep, if_pos (by omega)] at hdec
  exact lt_irrefl _ hdec

/-- The amended claim C2 at a concrete run: the tenth 200 response from `successSeq = 0`
lowers the backoff, and the count has reached 10. -/
theorem decay_after_threshold_witness :
    decreasesAt (throttledWith (8 * Second) 0) 9 ∧ 10 ≤ 0 + 9 + 1 :=
  ⟨by decide, (decay_after_threshold (throttledWith (8 * Second) 0) 9).2.2 (by decide)⟩

theorem take_of_all_throttled (l : List ℕ) (hall : ∀ c ∈ l, c = StatusTooManyRequests)
    (k : ℕ) (hk : k ≤ l.length) : l.take k = List.replicate k StatusTooManyRequests := by
  have hl : l = List.replicate l.length StatusTooManyRequests :=
    List.eq_replicate_iff.mpr ⟨rfl, hall⟩
  rw [hl, List.take_replicate, min_eq_left hk]

set_option maxRecDepth 100000 in
/-- Claim C3 as stated fails where the product leaves the range of `time.Duration`, and
where the maximum is negative.  With the constructor's factor 2 and minimum of 1s and
`maxBackoff = math.MaxInt64`, the backoff doubles up to `2^33` s; the next product is not
an `int64`, so the 34th 429 response leaves `math.MinInt64`, a smaller backoff.  With a
minimum of -2s and a maximum of -1s the first 429 response lowers the backoff from 0 to
-1s. -/
theorem throttled_run_counterexample :
    ¬ (∀ rt : BackoffRoundTripper,
        rt.backoff = 0 ∧ rt.sequentialMode = false →
        0 < rt.backoffFactor.den → rt.backoffFactor.den ≤ rt.backoffFactor.num →
        rt.defaultBackoff ≤ rt.maxBackoff →
        ∀ l : List ℕ, (∀ c ∈ l, c = StatusTooManyRequests) → ∀ k, k < l.length →
          (adjustAll rt (l.take k)).backoff ≤ (adjustAll rt (l.take (k + 1))).backoff
          ∧ (adjustAll rt (l.take (k + 1))).backoff ≤ rt.maxBackoff
          ∧ (adjustAll rt (l.take (k + 1))).sequentialMode = true)
    ∧ (adjustAll { NewBackoffRoundTripper with maxBackoff := MaxInt64 }
        (List.replicate 33 StatusTooManyRequests)).backoff = 8589934592 * Second
    ∧ (adjustAll { NewBackoffRoundTripper with maxBackoff := MaxInt64 }
        (List.replicate 34 StatusTooManyRequests)).backoff = MinInt64
    ∧ (adjustModeAndBackoff
        { NewBackoffRoundTripper with defaultBackoff := -2 * Second, maxBackoff := -1 * Second }
        StatusTooManyRequests).backoff = -1 * Second := by
  refine ⟨?_, by decide, by decide, by decide⟩
  intro h
  have hstep := (h { NewBackoffRoundTripper with maxBackoff := MaxInt64 } ⟨rfl, rfl⟩
    (by decide) (by decide) (by decide) (List.replicate 34 StatusTooManyRequests)
    (fun c hc => List.eq_of_mem_replicate hc) 33 (by decide)).1
  exact absurd hstep (by decide)

/-- Claim C3, amended: from the initial controller state (backoff 0, concurrent mode), with
a backoff factor of at least 1, `defaultBackoff ≤ maxBackoff`, a non-negative `maxBackoff`
and `maxBackoff * backoffFactor` at most `2^53` ns, along every sequence of responses that
are all 429 each response leaves the backoff at least as large as it was, at most
`maxBackoff`, and the controller in sequential mode. -/
theorem throttled_run_monotone_bounded (rt : BackoffRoundTripper)
    (hinit : rt.backoff = 0 ∧ rt.sequentialMode = false)
    (hden : 0 < rt.backoffFactor.den) (hf : rt.backoffFactor.den ≤ rt.backoffFactor.num)
    (hd : rt.defaultBackoff ≤ rt.maxBackoff) (hmax : 0 ≤ rt.maxBackoff)
    (hr : rt.maxBackoff * rt.backoffFactor.num / rt.backoffFactor.den ≤ 2 ^ 53)
    (l : List ℕ) (hall : ∀ c ∈ l, c = StatusTooManyRequests) (k : ℕ) (hk : k < l.length) :
    (adjustAll rt (l.take k)).backoff ≤ (adjustAll rt (l.take (k + 1))).backoff
    ∧ (adjustAll rt (l.take (k + 1))).backoff ≤ rt.maxBackoff
    ∧ (adjustAll rt (l.take (k + 1))).sequentialMode = true := by
  have h0 : 0 ≤ rt.backoff := by rw [hinit.1]
  have h1 : rt.backoff ≤ rt.maxBackoff := by rw [hinit.1]; exact hmax
  rw [take_of_all_throttled l hall k hk.le, take_of_all_throttled l hall (k + 1) hk]
  have hc := adjustAll_sameConfig rt (List.replicate k StatusTooManyRequests)
  have hrange := adjustAll_throttled_range rt hden hf hd hr h0 h1 k
  have hstep := adjustModeAndBackoff_throttled_step
    (adjustAll rt (List.replicate k StatusTooManyRequests))
    (by rw [hc.1]; exact hden) (by rw [hc.1]; exact hf)
    (by rw [hc.2.1, hc.2.2.1]; exact hd) (by rw [hc.1, hc.2.2.1]; exact hr)
    hrange.1 (by rw [hc.2.2.1]; exact hrange.2)
  rw [hc.2.2.1] at hstep
  refine ⟨?_, ?_, ?_⟩
  · rw [adjustAll_replicate_succ]; exact hstep.1
  · rw [adjustAll_replicate_succ]; exact hstep.2.2
  · rw [adjustAll_replicate_succ, adjustModeAndBackoff_throttled]

/-- Claim C3, amended, at the constructor's controller and three 429 responses: after the
second one the backoff has not shrunk (2s to 4s), is within the minute, and the mode is
sequential. -/
theorem throttled_run_monotone_bounded_witness :
    (adjustAll NewBackoffRoundTripper ([429, 429, 429].take 1)).backoff
        ≤ (adjustAll NewBackoffRoundTripper ([429, 429, 429].take (1 + 1))).backoff
    ∧ (adjustAll NewBackoffRoundTripper ([429, 429, 429].take (1 + 1))).backoff
        ≤ NewBackoffRoundTripper.maxBackoff
    ∧ (adjustAll NewBackoffRoundTripper ([429, 429, 429].take (1 + 1))).sequentialMode = true :=
  throttled_run_monotone_bounded NewBackoffRoundTripper ⟨rfl, rfl⟩ (by decide) (by decide)
    (by decide) (by decide) (by decide) [429, 429, 429] (by decide) 1 (by decide)

theorem adjustAll_ok_at_minimum (rt : BackoffRoundTripper)
    (hf : rt.backoffFactor.den < rt.backoffFactor.num) (hd : 0 < rt.defaultBackoff)
    (hb : rt.backoff = rt.defaultBackoff) (n : ℕ) :
    (adjustAll rt (List.replicate n StatusOK)).backoff = rt.defaultBackoff
    ∧ (10 ≤ rt.successSeq + n → 0 < n →
        (adjustAll rt (List.replicate n StatusOK)).sequentialMode = false) := by
  induction n with
  | zero => exact ⟨hb, fun _ h => absurd h (lt_irrefl 0)⟩
  | succ n ih =>
    have hc := adjustAll_sameConfig rt (List.replicate n StatusOK)
    have hseq := adjustAll_ok_successSeq rt n
    have hlt : Duration.divFloat (adjustAll rt (List.replicate n StatusOK)).backoff
        (adjustAll rt (List.replicate n StatusOK)).backoffFactor
        < (adjustAll rt (List.replicate n StatusOK)).defaultBackoff := by
      rw [ih.1, hc.1, hc.2.1]
      exact Duration.divFloat_lt _ _ hd hf
    rw [adjustAll_replicate_succ, adjustModeAndBackoff_ok, hseq]
    by_cases h10 : rt.successSeq + n + 1 < 10
    · rw [if_pos h10]
      exact ⟨ih.1, fun h _ => absurd h10 (by omega)⟩
    · rw [if_neg h10, if_pos hlt]
      exact ⟨hc.2.1, fun _ _ => rfl⟩

/-- Claim C5 as stated fails in its last part: with a backoff factor of 1 the quotient
`backoff / backoffFactor` is the backoff itself, never below the minimum, so a controller
in sequential mode with the backoff at the minimum of 1s is still in sequential mode after
ten, and after twenty, consecutive 200 responses. -/
theorem ok_run_factor_one_counterexample :
    ¬ (∀ (rt : BackoffRoundTripper) (n : ℕ), rt.backoff = rt.defaultBackoff → 10 ≤ n →
        (adjustAll rt (List.replicate n StatusOK)).sequentialMode = false)
    ∧ (adjustAll { throttledWith (1 * Second) 0 with backoffFactor := ⟨1, 1⟩ }
        (List.replicate 10 StatusOK)).sequentialMode = true
    ∧ (adjustAll { throttledWith (1 * Second) 0 with backoffFactor := ⟨1, 1⟩ }
        (List.replicate 20 StatusOK)).sequentialMode = true := by
  refine ⟨?_, by decide, by decide⟩
  intro h
  have h10 := h { throttledWith (1 * Second) 0 with backoffFactor := ⟨1, 1⟩ } 10 rfl
    (by decide)
  exact absurd h10 (by decide)

/-- Claim C5, amended: a 200 response increments `successSeq`; while the new count is below
10 the backoff and the mode are unchanged; otherwise the backoff becomes
`backoff / backoffFactor`, and when that quotient is below `defaultBackoff` the backoff is
set to `defaultBackoff` and the mode to concurrent, else the mode is unchanged.  For a
non-negative backoff and a factor `num / den` above zero with `backoff * den + num < 2^53`,
where the `float64` division is exact, the quotient is `backoff * den / num` rounded down.
Consequently, with a factor above 1 and a positive minimum, after ten or more consecutive
200 responses with the backoff at the minimum the mode is concurrent. -/
theorem ok_response_effect (rt : BackoffRoundTripper) :
    (adjustModeAndBackoff rt StatusOK).successSeq = rt.successSeq + 1
    ∧ (rt.successSeq + 1 < 10 →
        (adjustModeAndBackoff rt StatusOK).backoff = rt.backoff
        ∧ (adjustModeAndBackoff rt StatusOK).sequentialMode = rt.sequentialMode)
    ∧ (¬ rt.successSeq + 1 < 10 →
        Duration.divFloat rt.backoff rt.backoffFactor < rt.defaultBackoff →
        (adjustModeAndBackoff rt StatusOK).backoff = rt.defaultBackoff
        ∧ (adjustModeAndBackoff rt StatusOK).sequentialMode = false)
    ∧ (¬ rt.successSeq + 1 < 10 →
        ¬ Duration.divFloat rt.backoff rt.backoffFactor < rt.defaultBackoff →
        (adjustModeAndBackoff rt StatusOK).backoff
          = Duration.divFloat rt.backoff rt.backoffFactor
        ∧ (adjustModeAndBackoff rt StatusOK).sequentialMode = rt.sequentialMode)
    ∧ (0 < rt.backoffFactor.num → 0 ≤ rt.backoff →
        rt.backoff * rt.backoffFactor.den + rt.backoffFactor.num < 2 ^ 53 →
        Duration.divFloat rt.backoff rt.backoffFactor
          = rt.backoff * rt.backoffFactor.den / rt.backoffFactor.num)
    ∧ (¬ rt.successSeq + 1 < 10 → 0 < rt.backoffFactor.num → 0 ≤ rt.backoff →
        rt.backoff * rt.backoffFactor.den + rt.backoffFactor.num < 2 ^ 53 →
        rt.backoff * rt.backoffFactor.den / rt.backoffFactor.num < rt.defaultBackoff →
        (adjustModeAndBackoff rt StatusOK).backoff = rt.defaultBackoff
        ∧ (adjustModeAndBackoff rt StatusOK).sequentialMode = false)
    ∧ (¬ rt.successSeq + 1 < 10 → 0 < rt.backoffFactor.num → 0 ≤ rt.backoff →
        rt.backoff * rt.backoffFactor.den + rt.backoffFactor.num < 2 ^ 53 →
        rt.defaultBackoff ≤ rt.backoff * rt.backoffFactor.den / rt.backoffFactor.num →
        (adjustModeAndBackoff rt StatusOK).backoff
          = rt.backoff * rt.backoffFactor.den / rt.backoffFactor.num
        ∧ (adjustModeAndBackoff rt StatusOK).sequentialMode = rt.sequentialMode)
    ∧ (∀ n, rt.backoffFactor.den < rt.backoffFactor.num → 0 < rt.defaultBackoff →
        rt.backoff = rt.defaultBackoff → 10 ≤ n →
        (adjustAll rt (List.replicate n StatusOK)).sequentialMode = false) := by
  rw [adjustModeAndBackoff_ok]
  refine ⟨by split_ifs <;> rfl, ?_, ?_, ?_, ?_, ?_, ?_, ?_⟩
  · intro h
    rw [if_pos h]
    exact ⟨rfl, rfl⟩
  · intro h h2
    rw [if_neg h, if_pos h2]
    exact ⟨rfl, rfl⟩
  · intro h h2
    rw [if_neg h, if_neg h2]
    exact ⟨rfl, rfl⟩
  · intro hnum h0 hr
    exact Duration.divFloat_of_exact rt.backoff rt.backoffFactor hnum h0 hr
  · intro h hnum h0 hr hlt
    have hq := Duration.divFloat_of_exact rt.backoff rt.backoffFactor hnum h0 hr
    rw [if_neg h, if_pos (by rw [hq]; exact hlt)]
    exact ⟨rfl, rfl⟩
  · intro h hnum h0 hr hge
    have hq := Duration.divFloat_of_exact rt.backoff rt.backoffFactor hnum h0 hr
    rw [if_neg h, if_neg (by rw [hq]; exact not_lt.mpr hge), hq]
    exact ⟨rfl, rfl⟩
  · intro n hf hd hb hn
    exact (adjustAll_ok_at_minimum rt hf hd hb n).2 (by omega) (by omega)

/-- Claim C5, amended, at concrete controllers with the constructor's factor 2: the tenth
200 response halves a backoff of 8s to 4s, and one of 3,000,000,001 ns to 1,500,000,000 ns
(truncated); from sequential mode with the backoff at the minimum of 1s, ten 200 responses
leave concurrent mode. -/
theorem ok_response_effect_witness :
    ((adjustModeAndBackoff (throttledWith (8 * Second) 9) StatusOK).backoff = 4 * Second
      ∧ (adjustModeAndBackoff (throttledWith (8 * Second) 9) StatusOK).sequentialMode = true)
    ∧ ((adjustModeAndBackoff (throttledWith 3000000001 9) StatusOK).backoff = 1500000000
      ∧ (adjustModeAndBackoff (throttledWith 3000000001 9) StatusOK).sequentialMode = true)
    ∧ (adjustAll (throttledWith (1 * Second) 0) (List.replicate 10 StatusOK)).sequentialMode
      = false :=
  ⟨(ok_response_effect (throttledWith (8 * Second) 9)).2.2.2.2.2.2.1 (by decide) (by decide)
      (by decide) (by decide) (by decide),
   (ok_response_effect (throttledWith 3000000001 9)).2.2.2.2.2.2.1 (by decide) (by decide)
      (by decide) (by decide) (by decide),
   (ok_response_effect (throttledWith (1 * Second) 0)).2.2.2.2.2.2.2 10 (by decide)
      (by decide) (by decide) (by decide)⟩

/-! ## Properties of `RoundTrip` -/

theorem RoundTrip.loop_succ (base : ℕ → BaseResult) (fuel : ℕ) (rt : BackoffRoundTripper)
    (counter dispatched : ℕ) :
    RoundTrip.loop base (fuel + 1) rt counter dispatched =
      if rt.retries > 0 ∧ counter + 1 > rt.retries then
        some { res := none, err := some (.ErrTooManyRetries rt.retries), rt := rt,
               dispatched := dispatched }
      else
        match base dispatched with
        | .failed res err =>
          some { res := res, err := some (.transport err), rt := rt,
                 dispatched := dispatched + 1 }
        | .ok res =>
          if res.StatusCode ≠ StatusTooManyRequests then
            some { res := some res, err := none,
                   rt := adjustModeAndBackoff rt res.StatusCode,
                   dispatched := dispatched + 1 }
          else
            RoundTrip.loop base fuel (adjustModeAndBackoff rt res.StatusCode) (counter + 1)
              (dispatched + 1) := by
  rfl

theorem RoundTrip.loop_throttled (base : ℕ → BaseResult) (fuel : ℕ) (rt : BackoffRoundTripper)
    (counter dispatched : ℕ) (res : Response)
    (hlimit : rt.retries = 0 ∨ counter + 1 ≤ rt.retries)
    (hbase : base dispatched = .ok res) (h429 : res.StatusCode = StatusTooManyRequests) :
    RoundTrip.loop base (fuel + 1) rt counter dispatched =
      RoundTrip.loop base fuel (adjustModeAndBackoff rt StatusTooManyRequests) (counter + 1)
        (dispatched + 1) := by
  rw [RoundTrip.loop_succ, if_neg (by omega), hbase]
  simp only [h429, ne_eq, not_true_eq_false, if_false]

theorem RoundTrip.loop_throttled_run (base : ℕ → BaseResult) (j : ℕ) :
    ∀ (fuel : ℕ) (rt : BackoffRoundTripper) (counter dispatched : ℕ),
      (rt.retries = 0 ∨ counter + j ≤ rt.retries) →
      (∀ i, i < j → ∃ res, base (dispatched + i) = .ok res
          ∧ res.StatusCode = StatusTooManyRequests) →
      RoundTrip.loop base (fuel + j) rt counter dispatched =
        RoundTrip.loop base fuel (adjustAll rt (List.replicate j StatusTooManyRequests))
          (counter + j) (dispatched + j) := by
  induction j with
  | zero => intro fuel rt counter dispatched _ _; rfl
  | succ j ih =>
    intro fuel rt counter dispatched hlimit hbase
    obtain ⟨res, hres, h429⟩ := hbase 0 (Nat.succ_pos j)
    have hcfg := adjustModeAndBackoff_sameConfig rt StatusTooManyRequests
    rw [show fuel + (j + 1) = (fuel + j) + 1 by omega,
      RoundTrip.loop_throttled base (fuel + j) rt counter dispatched res (by omega) hres h429,
      ih fuel _ (counter + 1) (dispatched + 1) (by rw [hcfg.2.2.2]; omega)
        (fun i hi => by
          have := hbase (i + 1) (by omega)
          rwa [show dispatched + 1 + i = dispatched + (i + 1) by omega])]
    rw [show counter + 1 + j = counter + (j + 1) by omega,
      show dispatched + 1 + j = dispatched + (j + 1) by omega]
    rfl

theorem RoundTrip.loop_unlimited (base : ℕ → BaseResult) (fuel : ℕ) :
    ∀ (rt : BackoffRoundTripper) (counter dispatched : ℕ) (r : RoundTripResult),
      rt.retries = 0 → RoundTrip.loop base fuel rt counter dispatched = some r →
      ∀ m, r.err ≠ some (.ErrTooManyRetries m) := by
  induction fuel with
  | zero => intro rt counter dispatched r _ h; exact absurd h (by simp [RoundTrip.loop])
  | succ fuel ih =>
    intro rt counter dispatched r h0 h m
    rw [RoundTrip.loop_succ, if_neg (by omega)] at h
    cases hb : base dispatched with
    | failed res err =>
      rw [hb] at h
      simp only [Option.some.injEq] at h
      subst h
      simp
    | ok res =>
      rw [hb] at h
      by_cases h429 : res.StatusCode = StatusTooManyRequests
      · simp only [h429, ne_eq, not_true_eq_false, if_false] at h
        exact ih _ _ _ r
          (by rw [(adjustModeAndBackoff_sameConfig rt StatusTooManyRequests).2.2.2]; exact h0)
          h m
      · simp only [ne_eq, h429, not_false_eq_true, if_true, Option.some.injEq] at h
        subst h
        simp

/-- Claim C6: a status other than 200 and 429 leaves the controller as it is (mode,
backoff and success count included) and the attempt returns that response as it is; when
the base transport returns an error the attempt returns that error at once and the
controller is as before.  Stated for any iteration of the loop that passes the retry
test. -/
theorem other_status_and_error_keep_state :
    (∀ (rt : BackoffRoundTripper) (statusCode : ℕ),
        statusCode ≠ StatusOK → statusCode ≠ StatusTooManyRequests →
        adjustModeAndBackoff rt statusCode = rt)
    ∧ (∀ (base : ℕ → BaseResult) (fuel : ℕ) (rt : BackoffRoundTripper)
        (counter dispatched : ℕ) (res : Response),
        (rt.retries = 0 ∨ counter + 1 ≤ rt.retries) →
        base dispatched = .ok res →
        res.StatusCode ≠ StatusOK → res.StatusCode ≠ StatusTooManyRequests →
        RoundTrip.loop base (fuel + 1) rt counter dispatched =
          some { res := some res, err := none, rt := rt, dispatched := dispatched + 1 })
    ∧ (∀ (base : ℕ → BaseResult) (fuel : ℕ) (rt : BackoffRoundTripper)
        (counter dispatched : ℕ) (res : Option Response) (err : String),
        (rt.retries = 0 ∨ counter + 1 ≤ rt.retries) →
        base dispatched = .failed res err →
        RoundTrip.loop base (fuel + 1) rt counter dispatched =
          some { res := res, err := some (.transport err), rt := rt,
                 dispatched := dispatched + 1 }) := by
  refine ⟨adjustModeAndBackoff_other, ?_, ?_⟩
  · intro base fuel rt counter dispatched res hlimit hbase h200 h429
    rw [RoundTrip.loop_succ, if_neg (by omega), hbase]
    simp only [ne_eq, h429, not_false_eq_true, if_true]
    rw [adjustModeAndBackoff_other rt _ h200 h429]
  · intro base fuel rt counter dispatched res err hlimit hbase
    rw [RoundTrip.loop_succ, if_neg (by omega), hbase]

/-- Claim C6 at concrete inputs: a 503 answer to the first attempt is returned with the
controller untouched, and so is a transport error. -/
theorem other_status_and_error_keep_state_witness :
    RoundTrip (fun _ => .ok { StatusCode := 503, Body := "busy" }) 1 (throttledWith Second 4)
        = some { res := some { StatusCode := 503, Body := "busy" }, err := none,
                 rt := throttledWith Second 4, dispatched := 1 }
    ∧ RoundTrip (fun _ => .failed none "connection reset") 1 (throttledWith Second 4)
        = some { res := none, err := some (.transport "connection reset"),
                 rt := throttledWith Second 4, dispatched := 1 } :=
  ⟨other_status_and_error_keep_state.2.1 _ 0 (throttledWith Second 4) 0 0
      { StatusCode := 503, Body := "busy" } (Or.inl rfl) rfl (by decide) (by decide),
   other_status_and_error_keep_state.2.2 _ 0 (throttledWith Second 4) 0 0 none
      "connection reset" (Or.inl rfl) rfl⟩

/-- Claim C7: with a retry limit `n > 0` and a base transport that answers 429 to every
attempt, `RoundTrip` dispatches exactly `n` times and then fails with `ErrTooManyRetries`
and no response; when attempt `j + 1` (within the limit, or with no limit) is the first
one answered by a non-429 response, `RoundTrip` returns that response after exactly
`j + 1` dispatches; with `retries = 0` it never fails with `ErrTooManyRetries`. -/
theorem retry_ceiling :
    (∀ (rt : BackoffRoundTripper) (base : ℕ → BaseResult) (fuel : ℕ),
        0 < rt.retries →
        (∀ i, ∃ res, base i = .ok res ∧ res.StatusCode = StatusTooManyRequests) →
        rt.retries + 1 ≤ fuel →
        RoundTrip base fuel rt =
          some { res := none, err := some (.ErrTooManyRetries rt.retries),
                 rt := adjustAll rt (List.replicate rt.retries StatusTooManyRequests),
                 dispatched := rt.retries })
    ∧ (∀ (rt : BackoffRoundTripper) (base : ℕ → BaseResult) (fuel j : ℕ) (res : Response),
        (rt.retries = 0 ∨ j + 1 ≤ rt.retries) →
        (∀ i, i < j → ∃ r, base i = .ok r ∧ r.StatusCode = StatusTooManyRequests) →
        base j = .ok res → res.StatusCode ≠ StatusTooManyRequests →
        j + 1 ≤ fuel →
        RoundTrip base fuel rt =
          some { res := some res, err := none,
                 rt := adjustModeAndBackoff
                   (adjustAll rt (List.replicate j StatusTooManyRequests)) res.StatusCode,
                 dispatched := j + 1 })
    ∧ (∀ (rt : BackoffRoundTripper) (base : ℕ → BaseResult) (fuel : ℕ) (r : RoundTripResult),
        rt.retries = 0 → RoundTrip base fuel rt = some r →
        ∀ m, r.err ≠ some (.ErrTooManyRetries m)) := by
  refine ⟨?_, ?_, ?_⟩
  · intro rt base fuel hpos hbase hfuel
    obtain ⟨f, rfl⟩ : ∃ f, fuel = (f + 1) + rt.retries := ⟨fuel - rt.retries - 1, by omega⟩
    have hcfg := adjustAll_sameConfig rt (List.replicate rt.retries StatusTooManyRequests)
    unfold RoundTrip
    rw [RoundTrip.loop_throttled_run base rt.retries (f + 1) rt 0 0 (Or.inr (by omega))
      (fun i _ => by simpa using hbase i), RoundTrip.loop_succ,
      if_pos (by rw [hcfg.2.2.2]; omega), hcfg.2.2.2]
    simp
  · intro rt base fuel j res hlimit hpre hbase h429 hfuel
    obtain ⟨f, rfl⟩ : ∃ f, fuel = (f + 1) + j := ⟨fuel - j - 1, by omega⟩
    have hcfg := adjustAll_sameConfig rt (List.replicate j StatusTooManyRequests)
    unfold RoundTrip
    rw [RoundTrip.loop_throttled_run base j (f + 1) rt 0 0 (by omega)
      (fun i hi => by simpa using hpre i hi), RoundTrip.loop_succ,
      if_neg (by rw [hcfg.2.2.2]; omega)]
    simp only [Nat.zero_add, hbase, ne_eq, h429, not_false_eq_true, if_true]
  · intro rt base fuel r h0 h
    exact RoundTrip.loop_unlimited base fuel rt 0 0 r h0 h

/-- Claim C7 at a limit of three retries: an always-throttled transport is tried three
times before `ErrTooManyRetries`, and a transport that answers 200 to the third attempt
gets that answer returned after three dispatches. -/
theorem retry_ceiling_witness :
    (RoundTrip (alwaysThrottled "") 4 { NewBackoffRoundTripper with retries := 3 }
        = some { res := none, err := some (.ErrTooManyRetries 3),
                 rt := adjustAll { NewBackoffRoundTripper with retries := 3 }
                   (List.replicate 3 StatusTooManyRequests),
                 dispatched := 3 })
    ∧ (RoundTrip (throttledThen 2 { StatusCode := 200, Body := "ok" }) 3
          { NewBackoffRoundTripper with retries := 3 }
        = some { res := some { StatusCode := 200, Body := "ok" }, err := none,
                 rt := adjustModeAndBackoff
                   (adjustAll { NewBackoffRoundTripper with retries := 3 }
                     (List.replicate 2 StatusTooManyRequests)) 200,
                 dispatched := 3 }) :=
  ⟨retry_ceiling.1 { NewBackoffRoundTripper with retries := 3 } (alwaysThrottled "") 4
      (by decide) (fun _ => ⟨_, rfl, rfl⟩) (by decide),
   retry_ceiling.2.1 { NewBackoffRoundTripper with retries := 3 }
      (throttledThen 2 { StatusCode := 200, Body := "ok" }) 3 2
      { StatusCode := 200, Body := "ok" } (Or.inr (by decide))
      (fun i hi => ⟨{ StatusCode := StatusTooManyRequests, Body := "" },
        by simp [throttledThen, hi], rfl⟩) (by simp [throttledThen])
      (by decide) (by decide)⟩

/-! ## Properties of `AddToBatch` -/

theorem GptBatchSession.AddToBatch_eq
    (marshal : gptBatchSingleRequest → Except String (List UInt8))
    (s : GptBatchSession) (customRequestId systemPrompt userPrompt : String)
    (options : List RequestOption) :
    s.AddToBatch marshal customRequestId systemPrompt userPrompt options =
      match applyOptions options s.initialOptions with
      | .error err =>
        (some ((goerrorNew "gpt:add_to_batch" "failed to apply option").WithError err), s)
      | .ok opts =>
        if s.requestCount ≥ maxRequestCount then
          (some (ErrExceedsFileLimit.WithError "exceeds request limit"), s)
        else
          match marshal (batchRequest opts customRequestId systemPrompt userPrompt) with
          | .error err => (some (ErrSerializeBatchRequest.WithError err), s)
          | .ok serialized =>
            if s.createBatchData.length + (serialized.length + 1) > fileLimit then
              (some ErrExceedsFileLimit, s)
            else
              (none, { s with createBatchData := s.createBatchData ++ (serialized ++ [10])
                              requestCount := s.requestCount + 1 }) := by
  unfold GptBatchSession.AddToBatch
  simp only [List.length_append, List.length_singleton, decide_eq_true_eq]

theorem GptBatchSession.AddToBatch_rejected
    (marshal : gptBatchSingleRequest → Except String (List UInt8))
    (s : GptBatchSession) (customRequestId systemPrompt userPrompt : String)
    (options : List RequestOption) (e : TraceableError)
    (h : (s.AddToBatch marshal customRequestId systemPrompt userPrompt options).1 = some e) :
    (s.AddToBatch marshal customRequestId systemPrompt userPrompt options).2 = s := by
  rw [GptBatchSession.AddToBatch_eq] at h ⊢
  generalize applyOptions options s.initialOptions = r at h ⊢
  cases r with
  | error err => rfl
  | ok opts =>
    simp only at h ⊢
    by_cases hc : s.requestCount ≥ maxRequestCount
    · simp only [hc, if_true]
    · simp only [hc, if_false] at h ⊢
      generalize marshal (batchRequest opts customRequestId systemPrompt userPrompt) = m
        at h ⊢
      cases m with
      | error err => rfl
      | ok serialized =>
        simp only at h ⊢
        by_cases hl : s.createBatchData.length + (serialized.length + 1) > fileLimit
        · simp only [hl, if_true]
        · simp only [hl, if_false] at h
          exact absurd h (by simp)

theorem GptBatchSession.AddToBatch_bounds
    (marshal : gptBatchSingleRequest → Except String (List UInt8))
    (s : GptBatchSession) (customRequestId systemPrompt userPrompt : String)
    (options : List RequestOption)
    (h : s.requestCount ≤ maxRequestCount ∧ s.createBatchData.length ≤ fileLimit) :
    (s.AddToBatch marshal customRequestId systemPrompt userPrompt options).2.requestCount
        ≤ maxRequestCount
    ∧ (s.AddToBatch marshal customRequestId systemPrompt userPrompt
        options).2.createBatchData.length ≤ fileLimit := by
  rw [GptBatchSession.AddToBatch_eq]
  generalize applyOptions options s.initialOptions = r
  cases r with
  | error err => exact h
  | ok opts =>
    simp only
    by_cases hc : s.requestCount ≥ maxRequestCount
    · simp only [hc, if_true]; exact h
    · simp only [hc, if_false]
      generalize marshal (batchRequest opts customRequestId systemPrompt userPrompt) = m
      cases m with
      | error err => exact h
      | ok serialized =>
        simp only
        by_cases hl : s.createBatchData.length + (serialized.length + 1) > fileLimit
        · simp only [hl, if_true]; exact h
        · simp only [hl, if_false, List.length_append, List.length_singleton]
          omega

theorem GptBatchSession.addAll_bounds
    (marshal : gptBatchSingleRequest → Except String (List UInt8)) (calls : List AddCall) :
    ∀ s : GptBatchSession,
      s.requestCount ≤ maxRequestCount ∧ s.createBatchData.length ≤ fileLimit →
      (s.addAll marshal calls).requestCount ≤ maxRequestCount
      ∧ (s.addAll marshal calls).createBatchData.length ≤ fileLimit := by
  induction calls with
  | nil => intro s h; exact h
  | cons c rest ih =>
    intro s h
    exact ih _ (GptBatchSession.AddToBatch_bounds marshal s _ _ _ _ h)

theorem GptBatchSession.AddToBatch_fresh_lineOfSize (n : ℕ) (hn : n + 1 ≤ fileLimit)
    (customRequestId systemPrompt userPrompt : String) :
    (defaultGpt.NewBatchSession.AddToBatch (lineOfSize n) customRequestId systemPrompt
        userPrompt []).1 = none
    ∧ (defaultGpt.NewBatchSession.AddToBatch (lineOfSize n) customRequestId systemPrompt
        userPrompt []).2.createBatchData.length = n + 1 := by
  have hnot : ¬ (n + 1 > fileLimit) := by omega
  have hcnt : ¬ (0 ≥ maxRequestCount) := by decide
  rw [GptBatchSession.AddToBatch_eq]
  simp only [applyOptions, lineOfSize, Gpt.NewBatchSession, List.length_nil,
    List.length_replicate, Nat.zero_add, hnot, hcnt, if_false, List.nil_append,
    List.length_append, List.length_singleton, and_self]

theorem GptBatchSession.addAll_fresh_lineOfSize (n : ℕ) (hn : n + 1 ≤ fileLimit)
    (customRequestId systemPrompt userPrompt : String) :
    (defaultGpt.NewBatchSession.addAll (lineOfSize n)
        [{ customRequestId := customRequestId, systemPrompt := systemPrompt,
           userPrompt := userPrompt, options := [] }]).createBatchData.length = n + 1 :=
  (GptBatchSession.AddToBatch_fresh_lineOfSize n hn customRequestId systemPrompt
    userPrompt).2

/-- Claim C8 as stated fails: a fresh session accepts a single request whose serialized
form is 536,870,912 bytes long and then holds 536,870,913 bytes, one more than
512 MiB. -/
theorem shard_byte_bound_counterexample :
    ¬ (∀ (marshal : gptBatchSingleRequest → Except String (List UInt8)) (g : Gpt)
        (calls : List AddCall),
        (g.NewBatchSession.addAll marshal calls).requestCount ≤ 50000
        ∧ (g.NewBatchSession.addAll marshal calls).createBatchData.length ≤ 536870912) := by
  intro h
  have hlen := GptBatchSession.addAll_fresh_lineOfSize 536870912 (by decide) "r-1" "" ""
  have hle := (h (lineOfSize 536870912) defaultGpt
    [{ customRequestId := "r-1", systemPrompt := "", userPrompt := "", options := [] }]).2
  generalize (defaultGpt.NewBatchSession.addAll (lineOfSize 536870912)
    [{ customRequestId := "r-1", systemPrompt := "", userPrompt := "",
       options := [] }]).createBatchData.length = len at hlen hle
  omega

/-- Claim C8, amended: every session reached from `NewBatchSession` by any sequence of
`AddToBatch` calls has `requestCount ≤ 50,000` and holds at most 536,870,913 bytes
(512 MiB + 1). -/
theorem shard_bounds (marshal : gptBatchSingleRequest → Except String (List UInt8))
    (g : Gpt) (calls : List AddCall) :
    (g.NewBatchSession.addAll marshal calls).requestCount ≤ 50000
    ∧ (g.NewBatchSession.addAll marshal calls).createBatchData.length ≤ 536870913 :=
  GptBatchSession.addAll_bounds marshal calls g.NewBatchSession
    ⟨Nat.zero_le _, Nat.zero_le _⟩

/-- Claim C9: when all options apply and serialization succeeds, `AddToBatch` returns
`ErrExceedsFileLimit` exactly when `requestCount ≥ 50,000` or the bytes held plus the
serialized line with its newline exceed 512 MiB + 1, and returns `nil` otherwise. -/
theorem AddToBatch_rejects_at_ceilings
    (marshal : gptBatchSingleRequest → Except String (List UInt8))
    (s : GptBatchSession) (customRequestId systemPrompt userPrompt : String)
    (options : List RequestOption) (opts : appliedRequestOption) (serialized : List UInt8)
    (hopts : applyOptions options s.initialOptions = .ok opts)
    (hser : marshal (batchRequest opts customRequestId systemPrompt userPrompt)
      = .ok serialized) :
    ((∃ e, (s.AddToBatch marshal customRequestId systemPrompt userPrompt options).1 = some e
        ∧ e.code = ErrExceedsFileLimit.code ∧ e.message = ErrExceedsFileLimit.message)
      ↔ (s.requestCount ≥ 50000
          ∨ s.createBatchData.length + (serialized ++ [10]).length > 512 * 1024 * 1024 + 1))
    ∧ (¬ (s.requestCount ≥ 50000
          ∨ s.createBatchData.length + (serialized ++ [10]).length > 512 * 1024 * 1024 + 1)
        → (s.AddToBatch marshal customRequestId systemPrompt userPrompt options).1 = none) := by
  rw [GptBatchSession.AddToBatch_eq, hopts]
  simp only [List.length_append, List.length_singleton]
  have hlim : fileLimit = 512 * 1024 * 1024 + 1 := rfl
  have hcnt : maxRequestCount = 50000 := rfl
  rw [hlim, hcnt]
  by_cases hc : s.requestCount ≥ 50000
  · simp only [hc, if_true, true_or, iff_true, not_true_eq_false, false_imp_iff, and_true]
    exact ⟨_, rfl, rfl, rfl⟩
  · simp only [hc, if_false, hser, false_or]
    by_cases hl : s.createBatchData.length + (serialized.length + 1) > 512 * 1024 * 1024 + 1
    · simp only [hl, if_true, iff_true, not_true_eq_false, false_imp_iff, and_true]
      exact ⟨_, rfl, rfl, rfl⟩
    · simp only [hl, if_false, iff_false, not_false_eq_true, true_imp_iff, and_true]
      rintro ⟨e, he, _⟩
      exact absurd he (by simp)

/-- Claim C9 at a session holding 50,000 requests and three bytes: the next call is
rejected with `ErrExceedsFileLimit` although the bytes are far below the byte bound. -/
theorem AddToBatch_rejects_at_ceilings_witness :
    ∃ e, ((sessionWith 50000 [123, 125, 10]).AddToBatch (lineOfSize 2) "r-50001" "" ""
        []).1 = some e
      ∧ e.code = ErrExceedsFileLimit.code ∧ e.message = ErrExceedsFileLimit.message :=
  (AddToBatch_rejects_at_ceilings (lineOfSize 2) (sessionWith 50000 [123, 125, 10])
    "r-50001" "" "" [] (sessionWith 50000 [123, 125, 10]).initialOptions
    (List.replicate 2 97) rfl rfl).1.mpr (Or.inl (by decide))

/-- Claim C10: whenever `AddToBatch` returns an error (failed option, record ceiling,
serialization failure or byte ceiling) the session after the call is the session before
it, `createBatchData` and `requestCount` included, and repeating the call returns the
same error and leaves the same session. -/
theorem AddToBatch_rejection_atomic
    (marshal : gptBatchSingleRequest → Except String (List UInt8))
    (s : GptBatchSession) (customRequestId systemPrompt userPrompt : String)
    (options : List RequestOption) (e : TraceableError)
    (h : (s.AddToBatch marshal customRequestId systemPrompt userPrompt options).1 = some e) :
    (s.AddToBatch marshal customRequestId systemPrompt userPrompt
        options).2.createBatchData = s.createBatchData
    ∧ (s.AddToBatch marshal customRequestId systemPrompt userPrompt
        options).2.requestCount = s.requestCount
    ∧ (s.AddToBatch marshal customRequestId systemPrompt userPrompt options).2 = s
    ∧ (s.AddToBatch marshal customRequestId systemPrompt userPrompt options).2.AddToBatch
        marshal customRequestId systemPrompt userPrompt options = (some e, s) := by
  have hs := GptBatchSession.AddToBatch_rejected marshal s customRequestId systemPrompt
    userPrompt options e h
  refine ⟨by rw [hs], by rw [hs], hs, ?_⟩
  rw [hs]
  exact Prod.ext h hs

/-- Claim C10 at a session holding one record and a call whose option fails: the error is
returned and the session is as before. -/
theorem AddToBatch_rejection_atomic_witness :
    ((sessionWith 1 [123, 125, 10]).AddToBatch (lineOfSize 2) "r-2" "sys" "usr"
        [fun _ => .error "no schema"]).2 = sessionWith 1 [123, 125, 10] :=
  (AddToBatch_rejection_atomic (lineOfSize 2) (sessionWith 1 [123, 125, 10]) "r-2" "sys"
    "usr" [fun _ => .error "no schema"]
    ((goerrorNew "gpt:add_to_batch" "failed to apply option").WithError "no schema")
    rfl).2.2.1

/-! ## Properties of the accumulated shard -/

theorem bytesSplitNewline_ne_nil (data : List UInt8) : bytesSplitNewline data ≠ [] := by
  cases data with
  | nil => simp [bytesSplitNewline]
  | cons b rest =>
    unfold bytesSplitNewline
    split_ifs
    · simp
    · split <;> simp

theorem bytesSplitNewline_line (line rest : List UInt8) (h : (10 : UInt8) ∉ line) :
    bytesSplitNewline (line ++ 10 :: rest) = line :: bytesSplitNewline rest := by
  induction line with
  | nil => simp [bytesSplitNewline]
  | cons b line ih =>
    have hb : b ≠ 10 := fun hb => h (by simp [hb])
    have hl : (10 : UInt8) ∉ line := fun hl => h (List.mem_cons_of_mem _ hl)
    rw [List.cons_append, bytesSplitNewline, if_neg hb, ih hl]

theorem bytesSplitNewline_lines (lines : List (List UInt8))
    (h : ∀ r ∈ lines, (10 : UInt8) ∉ r) :
    bytesSplitNewline (lines.map fun r => r ++ [10]).flatten = lines ++ [[]] := by
  induction lines with
  | nil => simp [bytesSplitNewline]
  | cons r lines ih =>
    have hr : (10 : UInt8) ∉ r := h r (List.mem_cons_self _ _)
    have hrest : ∀ r ∈ lines, (10 : UInt8) ∉ r := fun x hx => h x (List.mem_cons_of_mem _ hx)
    rw [List.map_cons, List.flatten_cons, List.append_assoc, List.singleton_append,
      bytesSplitNewline_line _ _ hr, ih hrest, List.cons_append]

theorem GptBatchSession.AddToBatch_accepted
    (marshal : gptBatchSingleRequest → Except String (List UInt8))
    (s : GptBatchSession) (c : AddCall)
    (h : (s.AddToBatch marshal c.customRequestId c.systemPrompt c.userPrompt
      c.options).1 = none) :
    (s.AddToBatch marshal c.customRequestId c.systemPrompt c.userPrompt c.options).2 =
        { s with createBatchData := s.createBatchData ++ (requestLine marshal s c ++ [10])
                 requestCount := s.requestCount + 1 }
    ∧ ∃ req, marshal req = .ok (requestLine marshal s c) := by
  rw [GptBatchSession.AddToBatch_eq] at h ⊢
  unfold requestLine
  generalize applyOptions c.options s.initialOptions = r at h ⊢
  cases r with
  | error err => exact absurd h (by simp)
  | ok opts =>
    simp only at h ⊢
    by_cases hc : s.requestCount ≥ maxRequestCount
    · simp only [hc, if_true] at h
      exact absurd h (by simp)
    · simp only [hc, if_false] at h ⊢
      generalize hm : marshal (batchRequest opts c.customRequestId c.systemPrompt
        c.userPrompt) = m at h ⊢
      cases m with
      | error err => exact absurd h (by simp)
      | ok serialized =>
        simp only at h ⊢
        by_cases hl : s.createBatchData.length + (serialized.length + 1) > fileLimit
        · simp only [hl, if_true] at h
          exact absurd h (by simp)
        · simp only [hl, if_false]
          exact ⟨trivial, _, hm⟩

theorem GptBatchSession.addAll_records
    (marshal : gptBatchSingleRequest → Except String (List UInt8)) (calls : List AddCall) :
    ∀ s : GptBatchSession,
      (s.addAll marshal calls).createBatchData =
        s.createBatchData ++ ((acceptedRecords marshal s calls).map fun r => r ++ [10]).flatten
      ∧ (s.addAll marshal calls).requestCount
          = s.requestCount + (acceptedRecords marshal s calls).length
      ∧ ∀ r ∈ acceptedRecords marshal s calls, ∃ req, marshal req = .ok r := by
  induction calls with
  | nil => intro s; simp [GptBatchSession.addAll, acceptedRecords]
  | cons c rest ih =>
    intro s
    have hstep : s.addAll marshal (c :: rest) =
        (s.AddToBatch marshal c.customRequestId c.systemPrompt c.userPrompt
          c.options).2.addAll marshal rest := rfl
    rw [hstep, acceptedRecords]
    obtain ⟨ih1, ih2, ih3⟩ := ih (s.AddToBatch marshal c.customRequestId c.systemPrompt
      c.userPrompt c.options).2
    cases hr : (s.AddToBatch marshal c.customRequestId c.systemPrompt c.userPrompt
      c.options).1 with
    | none =>
      obtain ⟨hacc, hreq⟩ := GptBatchSession.AddToBatch_accepted marshal s c hr
      simp only [hr, Option.isNone_none, if_true]
      refine ⟨?_, ?_, ?_⟩
      · rw [ih1, hacc]; simp
      · rw [ih2, hacc]; simp; omega
      · intro r hmem
        rcases List.mem_cons.mp hmem with h | h
        · rw [h]; exact hreq
        · exact ih3 r h
    | some e =>
      have hrej := GptBatchSession.AddToBatch_rejected marshal s c.customRequestId
        c.systemPrompt c.userPrompt c.options e hr
      simp only [hr, Option.isNone_some, Bool.false_eq_true, if_false]
      rw [hrej] at ih1 ih2 ih3 ⊢
      exact ⟨ih1, ih2, ih3⟩

/-- Claim C11: after any sequence of `AddToBatch` calls on a fresh session,
`createBatchData` is the concatenation, in call order, of the serialized record of each
accepted call followed by one newline, and `requestCount` is the number of accepted calls;
hence, when serialized records contain no raw newline, splitting `createBatchData` on
newlines puts the record of the accepted call number `k + 1` at line index `k`. -/
theorem records_follow_call_order
    (marshal : gptBatchSingleRequest → Except String (List UInt8)) (g : Gpt)
    (calls : List AddCall) :
    (g.NewBatchSession.addAll marshal calls).createBatchData
        = ((acceptedRecords marshal g.NewBatchSession calls).map fun r => r ++ [10]).flatten
    ∧ (g.NewBatchSession.addAll marshal calls).requestCount
        = (acceptedRecords marshal g.NewBatchSession calls).length
    ∧ ((∀ req line, marshal req = .ok line → (10 : UInt8) ∉ line) →
        ∀ k, k < (acceptedRecords marshal g.NewBatchSession calls).length →
          (bytesSplitNewline (g.NewBatchSession.addAll marshal calls).createBatchData)[k]?
            = (acceptedRecords marshal g.NewBatchSession calls)[k]?) := by
  obtain ⟨h1, h2, h3⟩ := GptBatchSession.addAll_records marshal calls g.NewBatchSession
  have hdata : (g.NewBatchSession.addAll marshal calls).createBatchData
      = ((acceptedRecords marshal g.NewBatchSession calls).map fun r => r ++ [10]).flatten := by
    rw [h1]; rfl
  refine ⟨hdata, by rw [h2]; simp [Gpt.NewBatchSession], ?_⟩
  intro hnl k hk
  have hno : ∀ r ∈ acceptedRecords marshal g.NewBatchSession calls, (10 : UInt8) ∉ r := by
    intro r hr
    obtain ⟨req, hreq⟩ := h3 r hr
    exact hnl req r hreq
  rw [hdata, bytesSplitNewline_lines _ hno, List.getElem?_append_left hk]

/-- Claim C11 on three calls with the custom ids `a`, `b`, `c`: the shard is the three
records in call order, each followed by a newline, and the third call is at line
index 2. -/
theorem records_follow_call_order_witness :
    (defaultGpt.NewBatchSession.addAll customIdMarshal threeCalls).createBatchData
        = [97, 10, 98, 10, 99, 10]
    ∧ (bytesSplitNewline
        (defaultGpt.NewBatchSession.addAll (lineOfSize 1) threeCalls).createBatchData)[2]?
        = (acceptedRecords (lineOfSize 1) defaultGpt.NewBatchSession threeCalls)[2]? :=
  ⟨by decide,
   (records_follow_call_order (lineOfSize 1) defaultGpt threeCalls).2.2
    (fun _ line h => by
      have hl : line = List.replicate 1 97 := by
        simpa [lineOfSize] using h.symm
      rw [hl]; decide)
    2 (by decide)⟩

/-! ## Properties of `RetrieveBatchedRequest` -/

theorem GptBatchSession.RetrieveBatchedRequest_of_getBatch (env : Env)
    (s : GptBatchSession) (w : World) (batchId : String) (lineIdx : ℤ)
    (batch : GptBatchResponse) (s1 : GptBatchSession) (w1 : World)
    (hb : s.getBatch env w batchId = (.ok batch, s1, w1)) :
    s.RetrieveBatchedRequest env w batchId lineIdx =
      if batch.Status = "failed" then (.error (batchFailedError batch), s1, w1)
      else if batch.Status ≠ "completed" then (.error ErrBatchNotCompleted, s1, w1)
      else
        match batch.OutputFileID with
        | none => (.error (ErrRequestBatch.WithError "no output file ID"), s1, w1)
        | some outputFileID =>
          match s1.getFile env w1 outputFileID with
          | (.error err, s, w) => (.error err, s, w)
          | (.ok file, s, w) => (resolveLine env file lineIdx, s, w) := by
  unfold GptBatchSession.RetrieveBatchedRequest
  rw [hb]

theorem GptBatchSession.RetrieveBatchedRequest_of_getFile (env : Env)
    (s : GptBatchSession) (w : World) (batchId : String) (lineIdx : ℤ)
    (batch : GptBatchResponse) (s1 : GptBatchSession) (w1 : World)
    (fileId : String) (file : List UInt8) (s2 : GptBatchSession) (w2 : World)
    (hb : s.getBatch env w batchId = (.ok batch, s1, w1))
    (hs : batch.Status = "completed") (ho : batch.OutputFileID = some fileId)
    (hf : s1.getFile env w1 fileId = (.ok file, s2, w2)) :
    s.RetrieveBatchedRequest env w batchId lineIdx = (resolveLine env file lineIdx, s2, w2) := by
  rw [GptBatchSession.RetrieveBatchedRequest_of_getBatch env s w batchId lineIdx batch s1 w1 hb,
    if_neg (by rw [hs]; decide), if_neg (by rw [hs]; decide), ho]
  simp only [hf]

theorem retrieveBatch_world (env : Env) (w : World) (batchId : String) :
    (retrieveBatch env w batchId).2 = w
    ∨ (retrieveBatch env w batchId).2 =
        { w with requests := w.requests
            ++ [{ Method := "GET", URL := "https://api.openai.com/v1/batches/" ++ batchId }] } := by
  unfold retrieveBatch NewRequest World.Do
  dsimp only
  cases env.newRequestError "GET" ("https://api.openai.com/v1/batches/" ++ batchId) with
  | some err => exact Or.inl rfl
  | none =>
    refine Or.inr ?_
    simp only
    cases env.Do w.requests
        { Method := "GET", URL := "https://api.openai.com/v1/batches/" ++ batchId } with
    | error err => rfl
    | ok resp =>
      simp only
      cases parseResponse env.unmarshalBatch resp <;> rfl

theorem retrieveFileContent_world (env : Env) (w : World) (fileId : String) :
    (retrieveFileContent env w fileId).2 = w
    ∨ (retrieveFileContent env w fileId).2 =
        { w with requests := w.requests
            ++ [{ Method := "GET"
                  URL := "https://api.openai.com/v1/files/" ++ fileId ++ "/content" }] } := by
  unfold retrieveFileContent NewRequest World.Do
  dsimp only
  cases env.newRequestError "GET" ("https://api.openai.com/v1/files/" ++ fileId ++ "/content") with
  | some err => exact Or.inl rfl
  | none =>
    refine Or.inr ?_
    simp only
    cases env.Do w.requests
        { Method := "GET", URL := "https://api.openai.com/v1/files/" ++ fileId ++ "/content" } with
    | error err => rfl
    | ok resp =>
      simp only
      split_ifs
      · rfl
      · cases resp.Body <;> rfl

theorem World.WriteFile_requests (env : Env) (w : World) (path : String)
    (data : List UInt8) : (w.WriteFile env path data).requests = w.requests := by
  unfold World.WriteFile
  rcases env.writeFile path data with _ | ⟨err, _ | left⟩ <;> rfl

theorem GptBatchSession.getBatch_hit (env : Env) (s : GptBatchSession) (w : World)
    (batchId : String) (batch : GptBatchResponse)
    (h : s.batches.lookup batchId = some batch) :
    s.getBatch env w batchId = (.ok batch, s, w) := by
  unfold GptBatchSession.getBatch
  rw [h]

theorem GptBatchSession.getFile_hit (env : Env) (s : GptBatchSession) (w : World)
    (fileId : String) (file : List UInt8) (h : s.files.lookup fileId = some file) :
    s.getFile env w fileId = (.ok file, s, w) := by
  unfold GptBatchSession.getFile
  rw [h]

theorem GptBatchSession.getBatch_miss (env : Env) (s : GptBatchSession) (w : World)
    (batchId : String) (h : s.batches.lookup batchId = none) :
    s.getBatch env w batchId =
      match (if s.cacheDir ≠ "" then s.loadBatchFromPersistentCache env w batchId
             else none) with
      | some result => (.ok result, { s with batches := (batchId, result) :: s.batches }, w)
      | none =>
        match retrieveBatch env w batchId with
        | (.error err, w) => (.error err, s, w)
        | (.ok result, w) =>
          if s.cacheDir ≠ "" ∧ result.Status = BatchStatusComplete then
            (.ok result, { s with batches := (batchId, result) :: s.batches },
              w.WriteFile env (env.pathJoin s.cacheDir (batchId ++ ".json"))
                (env.marshalBatch result))
          else (.ok result, { s with batches := (batchId, result) :: s.batches }, w) := by
  unfold GptBatchSession.getBatch
  rw [h]

theorem GptBatchSession.getFile_miss (env : Env) (s : GptBatchSession) (w : World)
    (fileId : String) (h : s.files.lookup fileId = none) :
    s.getFile env w fileId =
      match (if s.cacheDir ≠ "" then
               w.disk.lookup (env.pathJoin s.cacheDir (fileId ++ ".jsonl"))
             else none) with
      | some data => (.ok data, { s with files := (fileId, data) :: s.files }, w)
      | none =>
        match retrieveFileContent env w fileId with
        | (.error err, w) => (.error err, s, w)
        | (.ok data, w) =>
          if s.cacheDir ≠ "" then
            (.ok data, { s with files := (fileId, data) :: s.files },
              w.WriteFile env (env.pathJoin s.cacheDir (fileId ++ ".jsonl")) data)
          else (.ok data, { s with files := (fileId, data) :: s.files }, w) := by
  unfold GptBatchSession.getFile
  rw [h]

theorem GptBatchSession.getBatch_disk_hit (env : Env) (s : GptBatchSession) (w : World)
    (batchId : String) (result : GptBatchResponse)
    (h : s.batches.lookup batchId = none)
    (hl : (if s.cacheDir ≠ "" then s.loadBatchFromPersistentCache env w batchId else none)
      = some result) :
    s.getBatch env w batchId
      = (.ok result, { s with batches := (batchId, result) :: s.batches }, w) := by
  rw [GptBatchSession.getBatch_miss env s w batchId h, hl]

theorem GptBatchSession.getBatch_live_error (env : Env) (s : GptBatchSession) (w : World)
    (batchId : String) (err : TraceableError) (w1 : World)
    (h : s.batches.lookup batchId = none)
    (hl : (if s.cacheDir ≠ "" then s.loadBatchFromPersistentCache env w batchId else none)
      = none)
    (hr : retrieveBatch env w batchId = (.error err, w1)) :
    s.getBatch env w batchId = (.error err, s, w1) := by
  rw [GptBatchSession.getBatch_miss env s w batchId h, hl]
  simp only [hr]

theorem GptBatchSession.getBatch_live_ok (env : Env) (s : GptBatchSession) (w : World)
    (batchId : String) (result : GptBatchResponse) (w1 : World)
    (h : s.batches.lookup batchId = none)
    (hl : (if s.cacheDir ≠ "" then s.loadBatchFromPersistentCache env w batchId else none)
      = none)
    (hr : retrieveBatch env w batchId = (.ok result, w1)) :
    s.getBatch env w batchId =
      (.ok result, { s with batches := (batchId, result) :: s.batches },
        if s.cacheDir ≠ "" ∧ result.Status = BatchStatusComplete then
          w1.WriteFile env (env.pathJoin s.cacheDir (batchId ++ ".json"))
            (env.marshalBatch result)
        else w1) := by
  rw [GptBatchSession.getBatch_miss env s w batchId h, hl]
  simp only [hr]
  split_ifs <;> rfl

/-- What `getBatch` leaves behind: the artifact map is untouched, the job map is either
untouched or extended by a binding for `batchId`, and at most one request, for the job,
was sent. -/
theorem GptBatchSession.getBatch_frame (env : Env) (s : GptBatchSession) (w : World)
    (batchId : String) :
    (s.getBatch env w batchId).2.1.files = s.files
    ∧ ((s.getBatch env w batchId).2.1.batches = s.batches
        ∨ (s.batches.lookup batchId = none
            ∧ ∃ result, (s.getBatch env w batchId).2.1.batches
                = (batchId, result) :: s.batches))
    ∧ ((s.getBatch env w batchId).2.2.requests = w.requests
        ∨ (s.getBatch env w batchId).2.2.requests = w.requests
            ++ [{ Method := "GET", URL := "https://api.openai.com/v1/batches/" ++ batchId }]) := by
  rcases h : s.batches.lookup batchId with _ | batch
  · rcases hl : (if s.cacheDir ≠ "" then s.loadBatchFromPersistentCache env w batchId
        else none) with _ | result
    · have hw := retrieveBatch_world env w batchId
      rcases hr : retrieveBatch env w batchId with ⟨r, w1⟩
      rw [hr] at hw
      have hreq : w1.requests = w.requests ∨ w1.requests = w.requests
          ++ [{ Method := "GET", URL := "https://api.openai.com/v1/batches/" ++ batchId }] := by
        rcases hw with hw | hw
        · exact Or.inl (by rw [show w1 = w from hw])
        · exact Or.inr (by rw [show w1 = _ from hw])
      cases r with
      | error err =>
        rw [GptBatchSession.getBatch_live_error env s w batchId err w1 h hl hr]
        exact ⟨rfl, Or.inl rfl, hreq⟩
      | ok result =>
        rw [GptBatchSession.getBatch_live_ok env s w batchId result w1 h hl hr]
        refine ⟨rfl, Or.inr ⟨rfl, result, rfl⟩, ?_⟩
        split_ifs
        · rw [World.WriteFile_requests]; exact hreq
        · exact hreq
    · rw [GptBatchSession.getBatch_disk_hit env s w batchId result h hl]
      exact ⟨rfl, Or.inr ⟨rfl, result, rfl⟩, Or.inl rfl⟩
  · rw [GptBatchSession.getBatch_hit env s w batchId batch h]
    exact ⟨rfl, Or.inl rfl, Or.inl rfl⟩

theorem resolveLine_out_of_bounds (env : Env) (file : List UInt8) (lineIdx : ℤ)
    (h : lineIdx < 0 ∨ lineIdx ≥ (bytesSplitNewline file).length) :
    resolveLine env file lineIdx =
      .error (ErrParseBatchLine.WithError
        ("line index out of bounds[0,"
          ++ toString (((bytesSplitNewline file).length : ℤ) - 1) ++ "]: "
          ++ toString lineIdx)) := by
  unfold resolveLine
  simp only [h, if_true]

theorem resolveLine_in_range (env : Env) (file : List UInt8) (lineIdx : ℤ)
    (h : 0 ≤ lineIdx ∧ lineIdx < (bytesSplitNewline file).length) :
    resolveLine env file lineIdx =
      match env.unmarshalLine ((bytesSplitNewline file).getD lineIdx.toNat []) with
      | .error err =>
        .error (ErrParseBatchLine.WithError ("failed to decode response: " ++ err))
      | .ok response =>
        if response.StatusCode ≠ 200 then
          .error (ErrParseBatchLine.WithError
            ("server responded with non-OK status: " ++ toString response.StatusCode))
        else
          match response.Body.Choices with
          | [] => .error (ErrParseBatchLine.WithError "gpt is clueless")
          | choice :: _ => .ok choice.Content := by
  unfold resolveLine
  have hn : ¬ (lineIdx < 0 ∨ lineIdx ≥ (bytesSplitNewline file).length) := by omega
  simp only [hn, if_false]
  cases env.unmarshalLine ((bytesSplitNewline file).getD lineIdx.toNat []) with
  | error err => rfl
  | ok response =>
    simp only
    split_ifs with h1 h2
    · rfl
    · rw [List.length_eq_zero] at h2
      rw [h2]
    · cases hch : response.Body.Choices with
      | nil => exact absurd (by rw [hch]; rfl) h2
      | cons choice rest => rfl

/-- Claim C12 as stated fails.  On an artifact of two newline-terminated lines, a
`lineIdx` of -1 fails with `ErrParseBatchLine` itself, the error used for malformed lines,
and not with a separate not-found error; and a `lineIdx` of 2 is not reported as out of
bounds: it addresses the empty piece after the last newline and fails in the decoder. -/
theorem line_index_error_counterexample :
    (GptBatchSession.RetrieveBatchedRequest offlineEnv
        (cachedSession (jobWith "completed" none) [97, 10, 98, 10]) emptyWorld "batch_1"
        (-1)).1
      = .error (ErrParseBatchLine.WithError "line index out of bounds[0,2]: -1")
    ∧ (GptBatchSession.RetrieveBatchedRequest offlineEnv
        (cachedSession (jobWith "completed" none) [97, 10, 98, 10]) emptyWorld "batch_1" 2).1
      = .error (ErrParseBatchLine.WithError
          "failed to decode response: unexpected end of JSON input") :=
  ⟨rfl, rfl⟩

/-- Claim C12, amended: for a completed job whose artifact was obtained,
`RetrieveBatchedRequest` with `lineIdx < 0` or `lineIdx` at least the number of pieces of
`bytes.Split(file, "\n")` fails with `ErrParseBatchLine` wrapping a line-index-out-of-bounds
error (the code has no separate not-found error); an artifact of `N` newline-terminated
lines has `N + 1` pieces, so this covers every `lineIdx ≥ N + 1`. -/
theorem line_index_out_of_bounds (env : Env) (s : GptBatchSession) (w : World)
    (batchId : String) (lineIdx : ℤ) (batch : GptBatchResponse) (s1 : GptBatchSession)
    (w1 : World) (fileId : String) (file : List UInt8) (s2 : GptBatchSession) (w2 : World)
    (hb : s.getBatch env w batchId = (.ok batch, s1, w1))
    (hs : batch.Status = "completed") (ho : batch.OutputFileID = some fileId)
    (hf : s1.getFile env w1 fileId = (.ok file, s2, w2))
    (hidx : lineIdx < 0 ∨ lineIdx ≥ (bytesSplitNewline file).length) :
    s.RetrieveBatchedRequest env w batchId lineIdx =
        (.error (ErrParseBatchLine.WithError
          ("line index out of bounds[0,"
            ++ toString (((bytesSplitNewline file).length : ℤ) - 1) ++ "]: "
            ++ toString lineIdx)), s2, w2)
    ∧ (∀ lines : List (List UInt8), (∀ r ∈ lines, (10 : UInt8) ∉ r) →
        file = (lines.map fun r => r ++ [10]).flatten →
        (bytesSplitNewline file).length = lines.length + 1) := by
  refine ⟨?_, ?_⟩
  · rw [GptBatchSession.RetrieveBatchedRequest_of_getFile env s w batchId lineIdx batch s1 w1
      fileId file s2 w2 hb hs ho hf, resolveLine_out_of_bounds env file lineIdx hidx]
  · intro lines hno hfile
    rw [hfile, bytesSplitNewline_lines lines hno, List.length_append]
    rfl

/-- Claim C12, amended, on an artifact of two newline-terminated lines held in memory: a
`lineIdx` of 3 is out of bounds. -/
theorem line_index_out_of_bounds_witness :
    GptBatchSession.RetrieveBatchedRequest offlineEnv
        (cachedSession (jobWith "completed" none) [97, 10, 98, 10]) emptyWorld "batch_1" 3
      = (.error (ErrParseBatchLine.WithError
          ("line index out of bounds[0,"
            ++ toString (((bytesSplitNewline [97, 10, 98, 10]).length : ℤ) - 1) ++ "]: "
            ++ toString (3 : ℤ))),
         cachedSession (jobWith "completed" none) [97, 10, 98, 10], emptyWorld) :=
  (line_index_out_of_bounds offlineEnv
    (cachedSession (jobWith "completed" none) [97, 10, 98, 10]) emptyWorld "batch_1" 3
    (jobWith "completed" none) _ _ "file_1" [97, 10, 98, 10] _ _ rfl rfl rfl rfl
    (Or.inr (by decide))).1

/-- Claim C13: for every fetched job, status `failed` makes `RetrieveBatchedRequest` fail
with `ErrBatchFailed` (wrapping the join of `code: message` over the job's errors, in
order), and any other status different from `completed` makes it fail with
`ErrBatchNotCompleted`; in both cases session and world are as `getBatch` left them, so
the artifact map is untouched and no request for the artifact was sent. -/
theorem status_dispatch (env : Env) (s : GptBatchSession) (w : World)
    (batchId : String) (lineIdx : ℤ) (batch : GptBatchResponse) (s1 : GptBatchSession)
    (w1 : World) (hb : s.getBatch env w batchId = (.ok batch, s1, w1)) :
    (batch.Status = "failed" →
        s.RetrieveBatchedRequest env w batchId lineIdx
          = (.error (batchFailedError batch), s1, w1)
        ∧ (batchFailedError batch).code = ErrBatchFailed.code
        ∧ (batchFailedError batch).message = ErrBatchFailed.message
        ∧ ∀ data, batch.Errors = some data → data ≠ [] →
            (batchFailedError batch).cause
              = some (String.intercalate "\n" (data.map fun e => e.Code ++ ": " ++ e.Message)))
    ∧ (batch.Status ≠ "failed" → batch.Status ≠ "completed" →
        s.RetrieveBatchedRequest env w batchId lineIdx = (.error ErrBatchNotCompleted, s1, w1))
    ∧ (batch.Status ≠ "completed" →
        (s.RetrieveBatchedRequest env w batchId lineIdx).2.1.files = s.files
        ∧ ((s.RetrieveBatchedRequest env w batchId lineIdx).2.2.requests = w.requests
            ∨ (s.RetrieveBatchedRequest env w batchId lineIdx).2.2.requests = w.requests
                ++ [{ Method := "GET"
                      URL := "https://api.openai.com/v1/batches/" ++ batchId }])) := by
  have hframe := GptBatchSession.getBatch_frame env s w batchId
  rw [hb] at hframe
  rw [GptBatchSession.RetrieveBatchedRequest_of_getBatch env s w batchId lineIdx batch s1 w1 hb]
  refine ⟨?_, ?_, ?_⟩
  · intro hfailed
    rw [if_pos hfailed]
    refine ⟨rfl, rfl, rfl, ?_⟩
    intro data hdata hne
    have hlen : data.length > 0 := List.length_pos.mpr hne
    simp only [batchFailedError, hdata, hlen, if_true]
  · intro hnf hnc
    rw [if_neg hnf, if_pos hnc]
  · intro hnc
    by_cases hfailed : batch.Status = "failed"
    · rw [if_pos hfailed]
      exact ⟨hframe.1, hframe.2.2⟩
    · rw [if_neg hfailed, if_pos hnc]
      exact ⟨hframe.1, hframe.2.2⟩

/-- Claim C13 on a job held in memory with status `failed` and two errors. -/
theorem status_dispatch_witness :
    GptBatchSession.RetrieveBatchedRequest offlineEnv (cachedSession failedJob []) emptyWorld
        "batch_1" 0
      = (.error { ErrBatchFailed with
                  cause := some "invalid_json: line 3\ntoo_long: line 7" },
         cachedSession failedJob [], emptyWorld) :=
  ((status_dispatch offlineEnv (cachedSession failedJob []) emptyWorld "batch_1" 0 failedJob
    (cachedSession failedJob []) emptyWorld rfl).1 rfl).1

/-- Claim C14: for a completed job whose artifact was obtained and an in-range `lineIdx`,
`RetrieveBatchedRequest` fails with `ErrParseBatchLine` exactly when the addressed line
does not decode, or its status code is not 200, or its body has no choices; otherwise it
returns the bytes of the content of the first choice, as they are. -/
theorem line_decoding (env : Env) (s : GptBatchSession) (w : World)
    (batchId : String) (lineIdx : ℤ) (batch : GptBatchResponse) (s1 : GptBatchSession)
    (w1 : World) (fileId : String) (file : List UInt8) (s2 : GptBatchSession) (w2 : World)
    (hb : s.getBatch env w batchId = (.ok batch, s1, w1))
    (hs : batch.Status = "completed") (ho : batch.OutputFileID = some fileId)
    (hf : s1.getFile env w1 fileId = (.ok file, s2, w2))
    (hidx : 0 ≤ lineIdx ∧ lineIdx < (bytesSplitNewline file).length) :
    ((∃ e, (s.RetrieveBatchedRequest env w batchId lineIdx).1 = .error e
          ∧ e.code = ErrParseBatchLine.code ∧ e.message = ErrParseBatchLine.message)
      ↔ ((∃ err, env.unmarshalLine ((bytesSplitNewline file).getD lineIdx.toNat [])
            = .error err)
        ∨ ∃ response, env.unmarshalLine ((bytesSplitNewline file).getD lineIdx.toNat [])
            = .ok response
          ∧ (response.StatusCode ≠ 200 ∨ response.Body.Choices.length = 0)))
    ∧ (∀ response choice rest,
        env.unmarshalLine ((bytesSplitNewline file).getD lineIdx.toNat []) = .ok response →
        response.StatusCode = 200 → response.Body.Choices = choice :: rest →
        s.RetrieveBatchedRequest env w batchId lineIdx = (.ok choice.Content, s2, w2)) := by
  rw [GptBatchSession.RetrieveBatchedRequest_of_getFile env s w batchId lineIdx batch s1 w1
    fileId file s2 w2 hb hs ho hf, resolveLine_in_range env file lineIdx hidx]
  cases hu : env.unmarshalLine ((bytesSplitNewline file).getD lineIdx.toNat []) with
  | error err =>
    refine ⟨⟨fun _ => Or.inl ⟨err, rfl⟩, fun _ => ⟨_, rfl, rfl, rfl⟩⟩, ?_⟩
    intro response choice rest h
    exact absurd h (by simp)
  | ok response =>
    simp only
    by_cases h200 : response.StatusCode ≠ 200
    · rw [if_pos h200]
      refine ⟨⟨fun _ => Or.inr ⟨response, rfl, Or.inl h200⟩, fun _ => ⟨_, rfl, rfl, rfl⟩⟩, ?_⟩
      intro response' choice rest h hcode
      rw [Except.ok.injEq] at h
      rw [← h] at hcode
      exact absurd hcode h200
    · rw [if_neg h200]
      cases hch : response.Body.Choices with
      | nil =>
        refine ⟨⟨fun _ => Or.inr ⟨response, rfl, Or.inr (by rw [hch]; rfl)⟩,
          fun _ => ⟨_, rfl, rfl, rfl⟩⟩, ?_⟩
        intro response' choice rest h _ hchoices
        rw [Except.ok.injEq] at h
        rw [← h, hch] at hchoices
        exact absurd hchoices (by simp)
      | cons choice rest =>
        refine ⟨⟨fun h => ?_, fun h => ?_⟩, ?_⟩
        · obtain ⟨e, he, _⟩ := h
          exact absurd he (by simp)
        · rcases h with ⟨err, herr⟩ | ⟨response', hresp, hbad⟩
          · exact absurd herr (by simp)
          · rw [Except.ok.injEq] at hresp
            rw [← hresp, hch] at hbad
            rcases hbad with hbad | hbad
            · exact absurd hbad h200
            · exact absurd hbad (by simp)
        · intro response' choice' rest' h _ hchoices
          rw [Except.ok.injEq] at h
          rw [← h, hch] at hchoices
          rw [List.cons.injEq] at hchoices
          rw [hchoices.1]

/-- Claim C14 on an artifact of two lines held in memory: line 1 decodes and its content
is returned. -/
theorem line_decoding_witness :
    GptBatchSession.RetrieveBatchedRequest offlineEnv
        (cachedSession (jobWith "completed" none) [97, 10, 98, 10]) emptyWorld "batch_1" 1
      = (.ok [98], cachedSession (jobWith "completed" none) [97, 10, 98, 10], emptyWorld) :=
  (line_decoding offlineEnv (cachedSession (jobWith "completed" none) [97, 10, 98, 10])
    emptyWorld "batch_1" 1 (jobWith "completed" none)
    (cachedSession (jobWith "completed" none) [97, 10, 98, 10]) emptyWorld "file_1"
    [97, 10, 98, 10] (cachedSession (jobWith "completed" none) [97, 10, 98, 10]) emptyWorld
    rfl rfl rfl rfl (by decide)).2
    { ID := "", CustomId := "", StatusCode := 200, RequestID := ""
      Body := { Id := "", Model := ""
                Choices := [{ Role := "assistant", Content := [98]
                              FinishReason := "stop", Index := 0 }] } }
    { Role := "assistant", Content := [98], FinishReason := "stop", Index := 0 } []
    rfl rfl rfl

/-! ## Properties of the two caches -/

theorem lookup_cons_same {β : Type} (k : String) (v : β) (l : List (String × β)) :
    List.lookup k ((k, v) :: l) = some v := by
  simp [List.lookup]

theorem lookup_cons_other {β : Type} (k a : String) (v : β) (l : List (String × β))
    (h : k ≠ a) : List.lookup k ((a, v) :: l) = List.lookup k l := by
  have hbeq : (k == a) = false := by simpa using h
  simp [List.lookup, hbeq]

theorem lookup_cons_fresh {β : Type} (k a : String) (v x : β) (l : List (String × β))
    (hk : List.lookup k l = some x) (ha : List.lookup a l = none) :
    List.lookup k ((a, v) :: l) = some x := by
  have hne : k ≠ a := by
    intro h
    rw [h, ha] at hk
    exact absurd hk (by simp)
  rw [lookup_cons_other k a v l hne, hk]

theorem GptBatchSession.getBatch_ok_binding (env : Env) (s : GptBatchSession) (w : World)
    (batchId : String) (batch : GptBatchResponse) (s1 : GptBatchSession) (w1 : World)
    (hb : s.getBatch env w batchId = (.ok batch, s1, w1)) :
    s1.batches.lookup batchId = some batch := by
  rcases h : s.batches.lookup batchId with _ | cached
  · rcases hl : (if s.cacheDir ≠ "" then s.loadBatchFromPersistentCache env w batchId
        else none) with _ | result
    · rcases hr : retrieveBatch env w batchId with ⟨r, w'⟩
      cases r with
      | error err =>
        rw [GptBatchSession.getBatch_live_error env s w batchId err w' h hl hr] at hb
        exact absurd (congrArg Prod.fst hb) (by simp)
      | ok result =>
        rw [GptBatchSession.getBatch_live_ok env s w batchId result w' h hl hr] at hb
        have h1 := congrArg Prod.fst hb
        have h2 := congrArg (fun p => p.2.1) hb
        simp only [Except.ok.injEq] at h1 h2
        rw [← h2, ← h1]
        exact lookup_cons_same _ _ _
    · rw [GptBatchSession.getBatch_disk_hit env s w batchId result h hl] at hb
      have h1 := congrArg Prod.fst hb
      have h2 := congrArg (fun p => p.2.1) hb
      simp only [Except.ok.injEq] at h1 h2
      rw [← h2, ← h1]
      exact lookup_cons_same _ _ _
  · rw [GptBatchSession.getBatch_hit env s w batchId cached h] at hb
    have h1 := congrArg Prod.fst hb
    have h2 := congrArg (fun p => p.2.1) hb
    simp only [Except.ok.injEq] at h1 h2
    rw [← h2, ← h1, h]

theorem GptBatchSession.getBatch_preserves (env : Env) (s : GptBatchSession) (w : World)
    (other : String) (batchId : String) (batch : GptBatchResponse)
    (h : s.batches.lookup batchId = some batch) :
    (s.getBatch env w other).2.1.batches.lookup batchId = some batch := by
  rcases (GptBatchSession.getBatch_frame env s w other).2.1 with hsame | ⟨hnone, result, hcons⟩
  · rw [hsame, h]
  · rw [hcons]
    exact lookup_cons_fresh batchId other result batch s.batches h hnone

/-- What `getFile` leaves behind: the job map is untouched and the artifact map is either
untouched or extended by a binding for `fileId`. -/
theorem GptBatchSession.getFile_frame (env : Env) (s : GptBatchSession) (w : World)
    (fileId : String) :
    (s.getFile env w fileId).2.1.batches = s.batches
    ∧ ((s.getFile env w fileId).2.1.files = s.files
        ∨ (s.files.lookup fileId = none
            ∧ ∃ data, (s.getFile env w fileId).1 = .ok data
                ∧ (s.getFile env w fileId).2.1.files = (fileId, data) :: s.files)) := by
  rcases h : s.files.lookup fileId with _ | file
  · rw [GptBatchSession.getFile_miss env s w fileId h]
    rcases (if s.cacheDir ≠ "" then
        w.disk.lookup (env.pathJoin s.cacheDir (fileId ++ ".jsonl"))
        else none) with _ | data
    · dsimp only
      rcases retrieveFileContent env w fileId with ⟨r, w'⟩
      cases r with
      | error err => exact ⟨rfl, Or.inl rfl⟩
      | ok data =>
        dsimp only
        split_ifs
        · exact ⟨rfl, Or.inr ⟨rfl, data, rfl, rfl⟩⟩
        · exact ⟨rfl, Or.inr ⟨rfl, data, rfl, rfl⟩⟩
    · exact ⟨rfl, Or.inr ⟨rfl, data, rfl, rfl⟩⟩
  · rw [GptBatchSession.getFile_hit env s w fileId file h]
    exact ⟨rfl, Or.inl rfl⟩

theorem GptBatchSession.getFile_ok_binding (env : Env) (s : GptBatchSession) (w : World)
    (fileId : String) (file : List UInt8) (s1 : GptBatchSession) (w1 : World)
    (hf : s.getFile env w fileId = (.ok file, s1, w1)) :
    s1.files.lookup fileId = some file ∧ s1.batches = s.batches := by
  have hframe := GptBatchSession.getFile_frame env s w fileId
  rw [hf] at hframe
  refine ⟨?_, hframe.1⟩
  rcases hframe.2 with hsame | ⟨_, data, hdata, hcons⟩
  · rcases h : s.files.lookup fileId with _ | cached
    · rw [GptBatchSession.getFile_miss env s w fileId h] at hf
      have hfiles : s1.files = s.files := hsame
      rcases hl : (if s.cacheDir ≠ "" then
          w.disk.lookup (env.pathJoin s.cacheDir (fileId ++ ".jsonl")) else none) with _ | data
      · rw [hl] at hf
        dsimp only at hf
        rcases hr : retrieveFileContent env w fileId with ⟨r, w'⟩
        rw [hr] at hf
        cases r with
        | error err => exact absurd (congrArg Prod.fst hf) (by simp)
        | ok data =>
          dsimp only at hf
          have h2 : (fileId, data) :: s.files = s1.files := by
            split_ifs at hf
            · exact congrArg (fun p => p.2.1.files) hf
            · exact congrArg (fun p => p.2.1.files) hf
          rw [hfiles] at h2
          exact absurd h2 (List.cons_ne_self _ _)
      · rw [hl] at hf
        have h2 : (fileId, data) :: s.files = s1.files :=
          congrArg (fun p => p.2.1.files) hf
        rw [hfiles] at h2
        exact absurd h2 (List.cons_ne_self _ _)
    · rw [GptBatchSession.getFile_hit env s w fileId cached h] at hf
      have h1 := congrArg Prod.fst hf
      have h2 := congrArg (fun p => p.2.1) hf
      simp only [Except.ok.injEq] at h1 h2
      rw [← h2, ← h1, h]
  · have hfiles : s1.files = (fileId, data) :: s.files := hcons
    have hd : Except.ok file = Except.ok data := hdata
    rw [Except.ok.injEq] at hd
    rw [hfiles, hd]
    exact lookup_cons_same _ _ _

theorem GptBatchSession.getFile_preserves (env : Env) (s : GptBatchSession) (w : World)
    (other : String) (fileId : String) (file : List UInt8)
    (h : s.files.lookup fileId = some file) :
    (s.getFile env w other).2.1.files.lookup fileId = some file := by
  rcases (GptBatchSession.getFile_frame env s w other).2 with hsame | ⟨hnone, data, _, hcons⟩
  · rw [hsame, h]
  · rw [hcons]
    exact lookup_cons_fresh fileId other data file s.files h hnone

theorem GptBatchSession.RetrieveBatchedRequest_session (env : Env) (s : GptBatchSession)
    (w : World) (batchId : String) (lineIdx : ℤ) :
    (s.RetrieveBatchedRequest env w batchId lineIdx).2.1 = (s.getBatch env w batchId).2.1
    ∨ ∃ fileId, (s.RetrieveBatchedRequest env w batchId lineIdx).2.1
        = ((s.getBatch env w batchId).2.1.getFile env (s.getBatch env w batchId).2.2
            fileId).2.1 := by
  rcases hb : s.getBatch env w batchId with ⟨r, s1, w1⟩
  cases r with
  | error err =>
    left
    unfold GptBatchSession.RetrieveBatchedRequest
    rw [hb]
  | ok batch =>
    rw [GptBatchSession.RetrieveBatchedRequest_of_getBatch env s w batchId lineIdx batch s1 w1 hb]
    by_cases h1 : batch.Status = "failed"
    · rw [if_pos h1]; exact Or.inl rfl
    · rw [if_neg h1]
      by_cases h2 : batch.Status ≠ "completed"
      · rw [if_pos h2]; exact Or.inl rfl
      · rw [if_neg h2]
        cases batch.OutputFileID with
        | none => exact Or.inl rfl
        | some fileId =>
          right
          refine ⟨fileId, ?_⟩
          dsimp only
          rcases s1.getFile env w1 fileId with ⟨r, s2, w2⟩
          cases r <;> rfl

theorem GptBatchSession.RetrieveBatchedRequest_preserves_batch (env : Env)
    (s : GptBatchSession) (w : World) (other : String) (lineIdx : ℤ)
    (batchId : String) (batch : GptBatchResponse)
    (h : s.batches.lookup batchId = some batch) :
    (s.RetrieveBatchedRequest env w other lineIdx).2.1.batches.lookup batchId = some batch := by
  have hg := GptBatchSession.getBatch_preserves env s w other batchId batch h
  rcases GptBatchSession.RetrieveBatchedRequest_session env s w other lineIdx with
    hs | ⟨fileId, hs⟩
  · rw [hs]; exact hg
  · rw [hs, (GptBatchSession.getFile_frame env _ _ fileId).1]; exact hg

theorem GptBatchSession.RetrieveBatchedRequest_preserves_file (env : Env)
    (s : GptBatchSession) (w : World) (other : String) (lineIdx : ℤ)
    (fileId : String) (file : List UInt8)
    (h : s.files.lookup fileId = some file) :
    (s.RetrieveBatchedRequest env w other lineIdx).2.1.files.lookup fileId = some file := by
  have hg : (s.getBatch env w other).2.1.files.lookup fileId = some file := by
    rw [(GptBatchSession.getBatch_frame env s w other).1]; exact h
  rcases GptBatchSession.RetrieveBatchedRequest_session env s w other lineIdx with
    hs | ⟨otherFile, hs⟩
  · rw [hs]; exact hg
  · rw [hs]
    exact GptBatchSession.getFile_preserves env _ _ otherFile fileId file hg

theorem GptBatchSession.retrieveAll_preserves (env : Env) (calls : List (String × ℤ)) :
    ∀ (s : GptBatchSession) (w : World),
      (∀ batchId batch, s.batches.lookup batchId = some batch →
        (GptBatchSession.retrieveAll env s w calls).1.batches.lookup batchId = some batch)
      ∧ (∀ fileId file, s.files.lookup fileId = some file →
        (GptBatchSession.retrieveAll env s w calls).1.files.lookup fileId = some file) := by
  induction calls with
  | nil => intro s w; exact ⟨fun _ _ h => h, fun _ _ h => h⟩
  | cons c rest ih =>
    intro s w
    have hstep : GptBatchSession.retrieveAll env s w (c :: rest) =
        GptBatchSession.retrieveAll env (s.RetrieveBatchedRequest env w c.1 c.2).2.1
          (s.RetrieveBatchedRequest env w c.1 c.2).2.2 rest := rfl
    rw [hstep]
    obtain ⟨ih1, ih2⟩ := ih (s.RetrieveBatchedRequest env w c.1 c.2).2.1
      (s.RetrieveBatchedRequest env w c.1 c.2).2.2
    exact ⟨fun batchId batch h => ih1 batchId batch
        (GptBatchSession.RetrieveBatchedRequest_preserves_batch env s w c.1 c.2 batchId batch h),
      fun fileId file h => ih2 fileId file
        (GptBatchSession.RetrieveBatchedRequest_preserves_file env s w c.1 c.2 fileId file h)⟩

theorem GptBatchSession.RetrieveBatchedRequest_cached (env : Env) (s : GptBatchSession)
    (w : World) (batchId : String) (lineIdx : ℤ) (batch : GptBatchResponse)
    (fileId : String) (file : List UInt8)
    (h : s.holdsCompleted batchId batch fileId file) :
    s.RetrieveBatchedRequest env w batchId lineIdx = (resolveLine env file lineIdx, s, w) :=
  GptBatchSession.RetrieveBatchedRequest_of_getFile env s w batchId lineIdx batch s w fileId
    file s w (GptBatchSession.getBatch_hit env s w batchId batch h.1) h.2.1 h.2.2.1
    (GptBatchSession.getFile_hit env s w fileId file h.2.2.2)

/-- Claim C15: once a call of `RetrieveBatchedRequest` has obtained a completed job and its
output artifact, then after any further calls of the session (for any job and line) a
call for that job, for any `lineIdx`, leaves the world as it is (no request is sent,
nothing is written) and the session as it is, and resolves the line against the same job
record and the same artifact bytes, which both lookups still return. -/
theorem no_redundant_fetch (env : Env) (s : GptBatchSession) (w : World)
    (batchId : String) (firstIdx : ℤ) (batch : GptBatchResponse) (s1 : GptBatchSession)
    (w1 : World) (fileId : String) (file : List UInt8) (s2 : GptBatchSession) (w2 : World)
    (hb : s.getBatch env w batchId = (.ok batch, s1, w1))
    (hs : batch.Status = "completed") (ho : batch.OutputFileID = some fileId)
    (hf : s1.getFile env w1 fileId = (.ok file, s2, w2))
    (between : List (String × ℤ)) (lineIdx : ℤ) :
    (s.RetrieveBatchedRequest env w batchId firstIdx).2 = (s2, w2)
    ∧ (GptBatchSession.retrieveAll env s2 w2 between).1.RetrieveBatchedRequest env
          (GptBatchSession.retrieveAll env s2 w2 between).2 batchId lineIdx
        = (resolveLine env file lineIdx, (GptBatchSession.retrieveAll env s2 w2 between).1,
            (GptBatchSession.retrieveAll env s2 w2 between).2)
    ∧ (GptBatchSession.retrieveAll env s2 w2 between).1.getBatch env
          (GptBatchSession.retrieveAll env s2 w2 between).2 batchId
        = (.ok batch, (GptBatchSession.retrieveAll env s2 w2 between).1,
            (GptBatchSession.retrieveAll env s2 w2 between).2)
    ∧ (GptBatchSession.retrieveAll env s2 w2 between).1.getFile env
          (GptBatchSession.retrieveAll env s2 w2 between).2 fileId
        = (.ok file, (GptBatchSession.retrieveAll env s2 w2 between).1,
            (GptBatchSession.retrieveAll env s2 w2 between).2) := by
  have hfile := GptBatchSession.getFile_ok_binding env s1 w1 fileId file s2 w2 hf
  have hbatch : s2.batches.lookup batchId = some batch := by
    rw [hfile.2]
    exact GptBatchSession.getBatch_ok_binding env s w batchId batch s1 w1 hb
  obtain ⟨hp1, hp2⟩ := GptBatchSession.retrieveAll_preserves env between s2 w2
  have hheld : (GptBatchSession.retrieveAll env s2 w2 between).1.holdsCompleted batchId batch
      fileId file := ⟨hp1 batchId batch hbatch, hs, ho, hp2 fileId file hfile.1⟩
  refine ⟨?_, ?_, ?_, ?_⟩
  · rw [GptBatchSession.RetrieveBatchedRequest_of_getFile env s w batchId firstIdx batch s1 w1
      fileId file s2 w2 hb hs ho hf]
  · exact GptBatchSession.RetrieveBatchedRequest_cached env _ _ batchId lineIdx batch fileId
      file hheld
  · exact GptBatchSession.getBatch_hit env _ _ batchId batch hheld.1
  · exact GptBatchSession.getFile_hit env _ _ fileId file hheld.2.2.2

/-- Claim C15 on a fresh session and a server that knows the completed job: the first
call fetches the job and the artifact; after one more call, a call for line 1 leaves the
world as it is, with the same two requests sent. -/
theorem no_redundant_fetch_witness :
    ((GptBatchSession.retrieveAll liveEnv
          { defaultGpt.NewBatchSession with
            batches := [("batch_1", jobWith "completed" none)]
            files := [("file_1", [97, 10, 98, 10])] }
          { disk := [], requests := [jobRequest, artifactRequest] }
          [("batch_1", 0)]).1.RetrieveBatchedRequest liveEnv
        (GptBatchSession.retrieveAll liveEnv
          { defaultGpt.NewBatchSession with
            batches := [("batch_1", jobWith "completed" none)]
            files := [("file_1", [97, 10, 98, 10])] }
          { disk := [], requests := [jobRequest, artifactRequest] }
          [("batch_1", 0)]).2 "batch_1" 1).2.2.requests
      = [jobRequest, artifactRequest] := by
  have h := (no_redundant_fetch liveEnv defaultGpt.NewBatchSession emptyWorld "batch_1" 0
    (jobWith "completed" none)
    { defaultGpt.NewBatchSession with batches := [("batch_1", jobWith "completed" none)] }
    { disk := [], requests := [jobRequest] } "file_1" [97, 10, 98, 10]
    { defaultGpt.NewBatchSession with
      batches := [("batch_1", jobWith "completed" none)]
      files := [("file_1", [97, 10, 98, 10])] }
    { disk := [], requests := [jobRequest, artifactRequest] }
    rfl rfl rfl rfl [("batch_1", 0)] 1).2.1
  rw [h]
  rfl

theorem retrieveBatch_disk (env : Env) (w : World) (batchId : String) :
    (retrieveBatch env w batchId).2.disk = w.disk := by
  rcases retrieveBatch_world env w batchId with h | h <;> rw [h]

theorem World.WriteFile_disk (env : Env) (w : World) (path : String) (data : List UInt8) :
    (w.WriteFile env path data).disk =
      match env.writeFile path data with
      | .done => (path, data) :: w.disk
      | .failed _ none => w.disk
      | .failed _ (some left) => (path, left) :: w.disk := by
  unfold World.WriteFile
  rcases env.writeFile path data with _ | ⟨err, _ | left⟩ <;> rfl

/-- Claim C16 as stated fails in its "if" half: `os.WriteFile` can fail, which the code only
logs.  Where the cache directory does not exist, a fresh session with the cache directory
`cache` fetches the completed job `batch_1` and stores it in memory, and the disk cache is
as before, without `batch_1.json`. -/
theorem getBatch_persistence_counterexample :
    ¬ (∀ (env : Env) (s : GptBatchSession) (w : World) (batchId : String)
        (result : GptBatchResponse) (w1 : World),
        s.batches.lookup batchId = none →
        (if s.cacheDir ≠ "" then s.loadBatchFromPersistentCache env w batchId else none)
          = none →
        retrieveBatch env w batchId = (.ok result, w1) →
        ((s.getBatch env w batchId).2.2.disk ≠ w.disk
          ↔ (s.cacheDir ≠ "" ∧ result.Status = "completed")))
    ∧ (diskSession.getBatch noDirEnv emptyWorld "batch_1").1
        = .ok (jobWith "completed" none)
    ∧ (diskSession.getBatch noDirEnv emptyWorld "batch_1").2.1.batches.lookup "batch_1"
        = some (jobWith "completed" none)
    ∧ diskSession.cacheDir = "cache"
    ∧ (diskSession.getBatch noDirEnv emptyWorld "batch_1").2.2.disk = [] := by
  refine ⟨?_, rfl, rfl, rfl, rfl⟩
  intro h
  have hiff := h noDirEnv diskSession emptyWorld "batch_1" (jobWith "completed" none)
    { disk := [], requests := [jobRequest] } rfl rfl rfl
  have hdisk : (diskSession.getBatch noDirEnv emptyWorld "batch_1").2.2.disk
      = emptyWorld.disk := rfl
  exact hiff.mpr ⟨by decide, rfl⟩ hdisk

/-- Claim C16, amended: when `getBatch` finds the job neither in memory nor on disk and
fetches it, a successful fetch stores the job in the in-memory map; `os.WriteFile` is
called, for the file `<jobId>.json` and the serialized job, exactly when a cache directory
is configured and the fetched status is `completed`, so the disk cache changes only then,
and it holds the serialized job under that name when the write succeeds; for every
other status and after a failed fetch the disk cache is as before. -/
theorem getBatch_persistence (env : Env) (s : GptBatchSession) (w : World)
    (batchId : String) (h : s.batches.lookup batchId = none)
    (hl : (if s.cacheDir ≠ "" then s.loadBatchFromPersistentCache env w batchId else none)
      = none) :
    (∀ result w1, retrieveBatch env w batchId = (.ok result, w1) →
        (s.getBatch env w batchId).1 = .ok result
        ∧ (s.getBatch env w batchId).2.1.batches.lookup batchId = some result
        ∧ (s.getBatch env w batchId).2.2.disk =
            (if s.cacheDir ≠ "" ∧ result.Status = "completed" then
              (w.WriteFile env (env.pathJoin s.cacheDir (batchId ++ ".json"))
                (env.marshalBatch result)).disk
             else w.disk)
        ∧ ((s.getBatch env w batchId).2.2.disk ≠ w.disk →
            s.cacheDir ≠ "" ∧ result.Status = "completed")
        ∧ (s.cacheDir ≠ "" → result.Status = "completed" →
            env.writeFile (env.pathJoin s.cacheDir (batchId ++ ".json"))
              (env.marshalBatch result) = .done →
            (s.getBatch env w batchId).2.2.disk =
              (env.pathJoin s.cacheDir (batchId ++ ".json"), env.marshalBatch result)
                :: w.disk))
    ∧ (∀ err w1, retrieveBatch env w batchId = (.error err, w1) →
        (s.getBatch env w batchId).1 = .error err
        ∧ (s.getBatch env w batchId).2.1 = s
        ∧ (s.getBatch env w batchId).2.2.disk = w.disk) := by
  refine ⟨?_, ?_⟩
  · intro result w1 hr
    have hd : w1.disk = w.disk := by
      have := retrieveBatch_disk env w batchId
      rw [hr] at this
      exact this
    rw [GptBatchSession.getBatch_live_ok env s w batchId result w1 h hl hr]
    have hcomplete : BatchStatusComplete = "completed" := rfl
    rw [hcomplete]
    have hdisk : (if s.cacheDir ≠ "" ∧ result.Status = "completed" then
          w1.WriteFile env (env.pathJoin s.cacheDir (batchId ++ ".json"))
            (env.marshalBatch result)
        else w1).disk =
        (if s.cacheDir ≠ "" ∧ result.Status = "completed" then
          (w.WriteFile env (env.pathJoin s.cacheDir (batchId ++ ".json"))
            (env.marshalBatch result)).disk
         else w.disk) := by
      by_cases hc : s.cacheDir ≠ "" ∧ result.Status = "completed"
      · rw [if_pos hc, if_pos hc, World.WriteFile_disk, World.WriteFile_disk, hd]
      · rw [if_neg hc, if_neg hc, hd]
    refine ⟨rfl, lookup_cons_same _ _ _, hdisk, ?_, ?_⟩
    · intro hne
      by_contra hc
      apply hne
      show (if s.cacheDir ≠ "" ∧ result.Status = "completed" then
          w1.WriteFile env (env.pathJoin s.cacheDir (batchId ++ ".json"))
            (env.marshalBatch result)
        else w1).disk = w.disk
      rw [if_neg hc, hd]
    · intro hdir hstatus hdone
      show (if s.cacheDir ≠ "" ∧ result.Status = "completed" then
          w1.WriteFile env (env.pathJoin s.cacheDir (batchId ++ ".json"))
            (env.marshalBatch result)
        else w1).disk = _
      rw [if_pos ⟨hdir, hstatus⟩, World.WriteFile_disk, hdone, hd]
  · intro err w1 hr
    have hd : w1.disk = w.disk := by
      have := retrieveBatch_disk env w batchId
      rw [hr] at this
      exact this
    rw [GptBatchSession.getBatch_live_error env s w batchId err w1 h hl hr]
    exact ⟨rfl, rfl, hd⟩

/-- Claim C16, amended, on a fresh session with the cache directory `cache` and a working
disk: the completed job is fetched and `cache/batch_1.json` is written. -/
theorem getBatch_persistence_witness :
    (diskSession.getBatch liveEnv emptyWorld "batch_1").2.2.disk
      = [("cache/batch_1.json", [1])] :=
  ((getBatch_persistence liveEnv diskSession emptyWorld "batch_1" rfl rfl).1
    (jobWith "completed" none) { disk := [], requests := [jobRequest] } rfl).2.2.2.2
    (by decide) rfl rfl

/-- Claim C19: once `getBatch` has returned a job for `batchId`, whatever its status, then
after any further calls of the session, and whatever the server would answer by then,
`getBatch` returns that same record and leaves session and world as they are (no request
is sent); so a job first seen with a status other than `completed` and `failed` makes
every later `RetrieveBatchedRequest` for it fail with `ErrBatchNotCompleted`. -/
theorem memory_cache_never_invalidated (env : Env) (s : GptBatchSession) (w : World)
    (batchId : String) (batch : GptBatchResponse) (s1 : GptBatchSession) (w1 : World)
    (hb : s.getBatch env w batchId = (.ok batch, s1, w1))
    (later : Env) (between : List (String × ℤ)) (lineIdx : ℤ) :
    (GptBatchSession.retrieveAll later s1 w1 between).1.getBatch later
          (GptBatchSession.retrieveAll later s1 w1 between).2 batchId
        = (.ok batch, (GptBatchSession.retrieveAll later s1 w1 between).1,
            (GptBatchSession.retrieveAll later s1 w1 between).2)
    ∧ (batch.Status ≠ "failed" → batch.Status ≠ "completed" →
        (GptBatchSession.retrieveAll later s1 w1 between).1.RetrieveBatchedRequest later
            (GptBatchSession.retrieveAll later s1 w1 between).2 batchId lineIdx
          = (.error ErrBatchNotCompleted, (GptBatchSession.retrieveAll later s1 w1 between).1,
              (GptBatchSession.retrieveAll later s1 w1 between).2)) := by
  have hbind := GptBatchSession.getBatch_ok_binding env s w batchId batch s1 w1 hb
  have hkept := (GptBatchSession.retrieveAll_preserves later between s1 w1).1 batchId batch
    hbind
  have hhit := GptBatchSession.getBatch_hit later
    (GptBatchSession.retrieveAll later s1 w1 between).1
    (GptBatchSession.retrieveAll later s1 w1 between).2 batchId batch hkept
  refine ⟨hhit, ?_⟩
  intro hnf hnc
  rw [GptBatchSession.RetrieveBatchedRequest_of_getBatch later _ _ batchId lineIdx batch _ _
    hhit, if_neg hnf, if_pos hnc]

/-- Claim C19 on a server that reports the job as in progress to the first request and as
completed afterwards: after the first fetch and one more call, a call of the session
still fails with `ErrBatchNotCompleted`, and only the first request was ever sent. -/
theorem memory_cache_never_invalidated_witness :
    GptBatchSession.RetrieveBatchedRequest pollingEnv
        (GptBatchSession.retrieveAll pollingEnv
          { defaultGpt.NewBatchSession with
            batches := [("batch_1", jobWith "in_progress" none)] }
          { disk := [], requests := [jobRequest] } [("batch_1", 0)]).1
        (GptBatchSession.retrieveAll pollingEnv
          { defaultGpt.NewBatchSession with
            batches := [("batch_1", jobWith "in_progress" none)] }
          { disk := [], requests := [jobRequest] } [("batch_1", 0)]).2 "batch_1" 0
      = (.error ErrBatchNotCompleted,
          { defaultGpt.NewBatchSession with
            batches := [("batch_1", jobWith "in_progress" none)] },
          { disk := [], requests := [jobRequest] }) :=
  (memory_cache_never_invalidated pollingEnv defaultGpt.NewBatchSession emptyWorld "batch_1"
    (jobWith "in_progress" none)
    { defaultGpt.NewBatchSession with batches := [("batch_1", jobWith "in_progress" none)] }
    { disk := [], requests := [jobRequest] } rfl pollingEnv [("batch_1", 0)] 0).2
    (by decide) (by decide)

/-! ## Properties of the endpoint adapters -/

theorem deleteFile_of_response (env : Env) (w : World) (fileId : String) (resp : HttpResponse)
    (hreq : env.newRequestError "DELETE" ("https://api.openai.com/v1/files/" ++ fileId) = none)
    (hdo : env.Do w.requests
      { Method := "DELETE", URL := "https://api.openai.com/v1/files/" ++ fileId } = .ok resp) :
    (deleteFile env w fileId).1 =
      if resp.StatusCode = StatusNotFound then none
      else if resp.StatusCode ≠ StatusOK then
        some (ErrDeleteFile.WithError
          ("server responded with non-OK status (" ++ resp.Status ++ ")"))
      else
        match parseResponse env.unmarshalDeletion resp with
        | .error err => some (ErrDeleteFile.WithError err)
        | .ok data =>
          if !data.Deleted then some (ErrDeleteFile.WithError "file was not deleted")
          else none := by
  unfold deleteFile NewRequest World.Do
  dsimp only
  rw [hreq]
  dsimp only
  rw [hdo]
  dsimp only
  split_ifs with h1 h2
  · rfl
  · rfl
  · cases parseResponse env.unmarshalDeletion resp with
    | error err => rfl
    | ok data =>
      dsimp only
      split_ifs <;> rfl

/-- Claim C17: for every response to the delete request, `deleteFile` returns no error
when the status is 404, returns `ErrDeleteFile` when the status is any other value
different from 200, and for status 200 returns no error exactly when the body decodes
with `deleted = true` (and `ErrDeleteFile` otherwise). -/
theorem deleteFile_status (env : Env) (w : World) (fileId : String) (resp : HttpResponse)
    (hreq : env.newRequestError "DELETE" ("https://api.openai.com/v1/files/" ++ fileId) = none)
    (hdo : env.Do w.requests
      { Method := "DELETE", URL := "https://api.openai.com/v1/files/" ++ fileId } = .ok resp) :
    (resp.StatusCode = 404 → (deleteFile env w fileId).1 = none)
    ∧ (resp.StatusCode ≠ 404 → resp.StatusCode ≠ 200 →
        (deleteFile env w fileId).1 = some (ErrDeleteFile.WithError
          ("server responded with non-OK status (" ++ resp.Status ++ ")")))
    ∧ (resp.StatusCode = 200 →
        ((deleteFile env w fileId).1 = none
          ↔ ∃ body data, resp.Body = .ok body ∧ env.unmarshalDeletion body = .ok data
              ∧ data.Deleted = true)
        ∧ ∀ e, (deleteFile env w fileId).1 = some e →
            e.code = ErrDeleteFile.code ∧ e.message = ErrDeleteFile.message) := by
  rw [deleteFile_of_response env w fileId resp hreq hdo]
  have h404 : StatusNotFound = 404 := rfl
  have h200 : StatusOK = 200 := rfl
  rw [h404, h200]
  refine ⟨fun h => by rw [if_pos h], fun h1 h2 => by rw [if_neg h1, if_pos h2], ?_⟩
  intro hok
  rw [if_neg (by omega), if_neg (by simp [hok])]
  unfold parseResponse
  rw [h200]
  cases hbody : resp.Body with
  | error err =>
    dsimp only
    refine ⟨⟨fun h => absurd h (by simp), fun ⟨_, _, h, _⟩ => absurd h (by simp)⟩, ?_⟩
    intro e he
    rw [Option.some.injEq] at he
    rw [← he]
    exact ⟨rfl, rfl⟩
  | ok body =>
    dsimp only
    rw [if_neg (by simp [hok])]
    cases hdec : env.unmarshalDeletion body with
    | error err =>
      dsimp only
      refine ⟨⟨fun h => absurd h (by simp), fun ⟨b, d, hb, hd, _⟩ => ?_⟩, ?_⟩
      · rw [Except.ok.injEq] at hb
        rw [← hb, hdec] at hd
        exact absurd hd (by simp)
      · intro e he
        rw [Option.some.injEq] at he
        rw [← he]
        exact ⟨rfl, rfl⟩
    | ok data =>
      dsimp only
      cases hdel : data.Deleted with
      | false =>
        refine ⟨⟨fun h => absurd h (by simp), fun ⟨b, d, hb, hd, hdd⟩ => ?_⟩, ?_⟩
        · rw [Except.ok.injEq] at hb
          rw [← hb, hdec, Except.ok.injEq] at hd
          rw [← hd, hdel] at hdd
          exact absurd hdd (by simp)
        · intro e he
          simp only [Bool.not_false, if_true, Option.some.injEq] at he
          rw [← he]
          exact ⟨rfl, rfl⟩
      | true =>
        refine ⟨⟨fun _ => ⟨body, data, rfl, hdec, hdel⟩, fun _ => by simp⟩, ?_⟩
        intro e he
        simp at he

/-- Claim C17 on a server that answers 404: deleting returns no error. -/
theorem deleteFile_status_witness :
    (deleteFile goneEnv emptyWorld "file_1").1 = none :=
  (deleteFile_status goneEnv emptyWorld "file_1"
    { StatusCode := 404, Status := "404 Not Found", Body := .ok [] } rfl rfl).1 rfl

/-- Claim C18, evaluated on the code: the URL `retrieveBatches` requests first is
`https://api.openai.com/v1/batches&limit=100`, with `&` where the query should start, so
its query is empty and `limit=100` is part of the path; the next page is requested at the
same text followed by `&after=<last_id>`.  On a server that serves exactly these two URLs
the pages are fetched while `has_more` holds and their data is concatenated in order. -/
theorem retrieveBatches_url_without_query :
    batchesURL "" = "https://api.openai.com/v1/batches&limit=100"
    ∧ rawQuery (batchesURL "") = ""
    ∧ rawQuery "https://api.openai.com/v1/batches?limit=100" = "limit=100"
    ∧ batchesURL "batch_2" = "https://api.openai.com/v1/batches&limit=100&after=batch_2"
    ∧ retrieveBatches twoPageEnv 2 emptyWorld =
        some (.ok [jobNamed "batch_1", jobNamed "batch_2", jobNamed "batch_3"],
          { disk := []
            requests :=
              [{ Method := "GET", URL := "https://api.openai.com/v1/batches&limit=100" },
               { Method := "GET"
                 URL := "https://api.openai.com/v1/batches&limit=100&after=batch_2" }] }) :=
  ⟨by decide, by decide, by decide, by decide, rfl⟩

end Gogpt
